import Mathlib

set_option maxHeartbeats 1600000

namespace Wardrobe

/-!  Shallow embedding of the wardrobe application's persistence layer.

The application stores its catalog with `json.dump(data, f, indent=2)` and
reads it back with `json.load(f)`.  The catalog documents produced by the
application consist of JSON objects, arrays, strings and `null` (no numbers
or booleans occur in any item or outfit field), so the document grammar is
modelled by `JVal`.  `ser` reproduces the exact text layout of
`json.dump(..., indent=2)` (including `ensure_ascii` escaping of strings),
and `parseVal`/`parseStr` model the strict-mode `json.load` scanner
restricted to that grammar. -/

inductive JVal where
  | null : JVal
  | str : String → JVal
  | arr : List JVal → JVal
  | obj : List (String × JVal) → JVal

/-- JSON whitespace accepted between tokens by `json.load`. -/
def isJsonWs (c : Char) : Bool :=
  c == ' ' || c == '\t' || c == '\n' || c == '\r'

/-- Skip JSON whitespace. -/
def skipWs (l : List Char) : List Char :=
  l.dropWhile isJsonWs

/-- Indentation emitted by `json.dump(..., indent=2)` at nesting level `n`. -/
def ind (n : Nat) : List Char :=
  List.replicate (2 * n) ' '

/-- Lowercase hex digit, as produced by Python's `'\\u%04x' % n`. -/
def hexDigitChar (n : Nat) : Char :=
  if n < 10 then Char.ofNat (48 + n) else Char.ofNat (87 + n)

/-- Four lowercase hex digits of `n < 0x10000`. -/
def hex4 (n : Nat) : List Char :=
  [hexDigitChar (n / 4096 % 16), hexDigitChar (n / 256 % 16),
   hexDigitChar (n / 16 % 16), hexDigitChar (n % 16)]

/-- Value of a hex digit character (`json` accepts both cases). -/
def hexVal (c : Char) : Option Nat :=
  if 48 ≤ c.toNat ∧ c.toNat ≤ 57 then some (c.toNat - 48)
  else if 97 ≤ c.toNat ∧ c.toNat ≤ 102 then some (c.toNat - 87)
  else if 65 ≤ c.toNat ∧ c.toNat ≤ 70 then some (c.toNat - 55)
  else none

/-- Escape of a single character following Python's
`json.encoder.py_encode_basestring_ascii`: `"` and `\` get a backslash,
the five short escapes are used for the control characters that have one,
every other character outside `0x20..0x7e` is written as `\uXXXX`
(a surrogate pair for astral code points), and the rest stand for
themselves. -/
def escapeChar (c : Char) : List Char :=
  if c = '"' then ['\\', '"']
  else if c = '\\' then ['\\', '\\']
  else if c = '\x08' then ['\\', 'b']
  else if c = '\x09' then ['\\', 't']
  else if c = '\x0a' then ['\\', 'n']
  else if c = '\x0c' then ['\\', 'f']
  else if c = '\x0d' then ['\\', 'r']
  else if 0x20 ≤ c.toNat ∧ c.toNat ≤ 0x7e then [c]
  else if c.toNat < 0x10000 then '\\' :: 'u' :: hex4 c.toNat
  else
    '\\' :: 'u' :: hex4 (0xd800 + (c.toNat - 0x10000) / 0x400) ++
      ('\\' :: 'u' :: hex4 (0xdc00 + (c.toNat - 0x10000) % 0x400))

/-- Escaped body of a JSON string literal. -/
def escString (s : String) : List Char :=
  (s.data.map escapeChar).flatten

mutual

/-- Text of `json.dump(v, f, indent=2)` at nesting level `lvl`. -/
def ser (lvl : Nat) : JVal → List Char
  | .null => ['n', 'u', 'l', 'l']
  | .str s => '"' :: escString s ++ ['"']
  | .arr [] => ['[', ']']
  | .arr (x :: xs) =>
      '[' :: serElemsNE (lvl + 1) x xs ++ '\n' :: (ind lvl ++ [']'])
  | .obj [] => ['\x7b', '\x7d']
  | .obj ((k, v) :: kvs) =>
      '\x7b' :: serMembersNE (lvl + 1) k v kvs ++ '\n' :: (ind lvl ++ ['\x7d'])
termination_by v => sizeOf v
decreasing_by all_goals (simp; try omega)

/-- The elements of a non-empty array: newline, indentation, first element,
then the remaining elements each preceded by `,\n` and indentation. -/
def serElemsNE (lvl : Nat) (x : JVal) (xs : List JVal) : List Char :=
  '\n' :: (ind lvl ++ ser lvl x) ++ serArrTail lvl xs
termination_by 1 + sizeOf x + sizeOf xs
decreasing_by all_goals (simp; try omega)

def serArrTail (lvl : Nat) : List JVal → List Char
  | [] => []
  | y :: ys => ',' :: '\n' :: (ind lvl ++ ser lvl y) ++ serArrTail lvl ys
termination_by xs => sizeOf xs
decreasing_by all_goals (simp; try omega)

/-- The members of a non-empty object (`": "` is the default key separator). -/
def serMembersNE (lvl : Nat) (k : String) (v : JVal) (kvs : List (String × JVal)) : List Char :=
  '\n' :: (ind lvl ++ ('"' :: escString k ++ '"' :: ':' :: ' ' :: ser lvl v)) ++
    serObjTail lvl kvs
termination_by 1 + sizeOf v + sizeOf kvs
decreasing_by all_goals (simp; try omega)

def serObjTail (lvl : Nat) : List (String × JVal) → List Char
  | [] => []
  | (k, v) :: kvs =>
      ',' :: '\n' :: (ind lvl ++ ('"' :: escString k ++ '"' :: ':' :: ' ' :: ser lvl v)) ++
        serObjTail lvl kvs
termination_by kvs => sizeOf kvs
decreasing_by all_goals (simp; try omega)
end

/-- Helper prepending a decoded character to a string-scan result. -/
def consStr (c : Char) : Option (List Char × List Char) → Option (List Char × List Char)
  | none => none
  | some (cs, r) => some (c :: cs, r)

/-- Body scanner for a JSON string literal (the opening quote already
consumed), following `json.decoder.py_scanstring` in strict mode: plain
characters up to the closing quote, backslash escapes including `\uXXXX`
with surrogate-pair combination, and rejection of raw control
characters. -/
def parseStr : List Char → Option (List Char × List Char)
  | [] => none
  | '"' :: rest => some ([], rest)
  | '\\' :: rest =>
    match rest with
    | '"' :: r => consStr '"' (parseStr r)
    | '\\' :: r => consStr '\\' (parseStr r)
    | '/' :: r => consStr '/' (parseStr r)
    | 'b' :: r => consStr '\x08' (parseStr r)
    | 'f' :: r => consStr '\x0c' (parseStr r)
    | 'n' :: r => consStr '\x0a' (parseStr r)
    | 'r' :: r => consStr '\x0d' (parseStr r)
    | 't' :: r => consStr '\x09' (parseStr r)
    | 'u' :: h1 :: h2 :: h3 :: h4 :: r =>
      match hexVal h1, hexVal h2, hexVal h3, hexVal h4 with
      | some a, some b, some c, some d =>
        let n := 4096 * a + 256 * b + 16 * c + d
        if n < 0xd800 ∨ 0xe000 ≤ n then consStr (Char.ofNat n) (parseStr r)
        else if n < 0xdc00 then
          match r with
          | '\\' :: 'u' :: g1 :: g2 :: g3 :: g4 :: r2 =>
            match hexVal g1, hexVal g2, hexVal g3, hexVal g4 with
            | some a2, some b2, some c2, some d2 =>
              let m := 4096 * a2 + 256 * b2 + 16 * c2 + d2
              if 0xdc00 ≤ m ∧ m < 0xe000 then
                consStr (Char.ofNat (0x10000 + (n - 0xd800) * 0x400 + (m - 0xdc00)))
                  (parseStr r2)
              else none
            | _, _, _, _ => none
          | _ => none
        else none
      | _, _, _, _ => none
    | _ => none
  | c :: rest => if c.toNat < 0x20 then none else consStr c (parseStr rest)

mutual

/-- Value scanner of `json.load` restricted to the catalog grammar
(null, strings, arrays, objects).  The `fuel` argument only bounds the
nesting depth; `jsonLoads` supplies more fuel than any input can need. -/
def parseVal : Nat → List Char → Option (JVal × List Char)
  | 0, _ => none
  | fuel + 1, input =>
    match skipWs input with
    | 'n' :: 'u' :: 'l' :: 'l' :: rest => some (.null, rest)
    | '"' :: rest =>
      match parseStr rest with
      | some (cs, r) => some (.str (String.mk cs), r)
      | none => none
    | '[' :: rest =>
      match skipWs rest with
      | ']' :: r => some (.arr [], r)
      | _ =>
        match parseElems fuel rest with
        | some (xs, r) => some (.arr xs, r)
        | none => none
    | '\x7b' :: rest =>
      match skipWs rest with
      | '\x7d' :: r => some (.obj [], r)
      | _ =>
        match parseMembers fuel rest with
        | some (kvs, r) => some (.obj kvs, r)
        | none => none
    | _ => none

def parseElems : Nat → List Char → Option (List JVal × List Char)
  | 0, _ => none
  | fuel + 1, input =>
    match parseVal fuel input with
    | some (v, rest) =>
      match skipWs rest with
      | ',' :: r =>
        match parseElems fuel r with
        | some (xs, r2) => some (v :: xs, r2)
        | none => none
      | ']' :: r => some ([v], r)
      | _ => none
    | none => none

def parseMembers : Nat → List Char → Option (List (String × JVal) × List Char)
  | 0, _ => none
  | fuel + 1, input =>
    match skipWs input with
    | '"' :: rest =>
      match parseStr rest with
      | some (ks, r1) =>
        match skipWs r1 with
        | ':' :: r2 =>
          match parseVal fuel r2 with
          | some (v, r3) =>
            match skipWs r3 with
            | ',' :: r4 =>
              match parseMembers fuel r4 with
              | some (kvs, r5) => some ((String.mk ks, v) :: kvs, r5)
              | none => none
            | '\x7d' :: r4 => some ([(String.mk ks, v)], r4)
            | _ => none
          | none => none
        | _ => none
      | none => none
    | _ => none
end

/-- `json.load` of a whole document: one value, with whitespace allowed
around it and nothing else in the file.  `none` models the
`JSONDecodeError` raised on malformed input. -/
def jsonLoads (s : String) : Option JVal :=
  match parseVal (s.data.length + 1) s.data with
  | some (v, rest) => if (skipWs rest).isEmpty then some v else none
  | none => none

/-- `json.dump(v, f, indent=2)`: the exact text written to the file. -/
def jsonDump (v : JVal) : String :=
  String.mk (ser 0 v)

mutual

/-- Nesting fuel needed by `parseVal` to scan a serialized value. -/
def fsize : JVal → Nat
  | .null => 1
  | .str _ => 1
  | .arr xs => 1 + esize xs
  | .obj kvs => 1 + msize kvs

def esize : List JVal → Nat
  | [] => 0
  | y :: ys => 1 + fsize y + esize ys

def msize : List (String × JVal) → Nat
  | [] => 0
  | (_, v) :: kvs => 1 + fsize v + msize kvs
end


/-! ### Data model of the catalog

`Item` is the dictionary built by the Add Clothes form (`new_item` in
`app.py`), `Outfit` the dictionary built by the Save Outfit handler, and
`Catalog` the whole persisted document (`{"items": [...], "outfits": [...]}`).
All fields are exactly the ones the application writes. -/

structure Item where
  id : String
  name : String
  category : String
  color : String
  style : List String
  occasions : List String
  seasons : List String
  image_path : String
  tag_image_path : Option String
  brand : String
  size : String
  material : String
  care_instructions : List String
  pattern : Option String
  added_date : String
deriving DecidableEq, Inhabited

structure Outfit where
  id : String
  name : String
  items : List String
  created_date : String
deriving DecidableEq, Inhabited

structure Catalog where
  items : List Item
  outfits : List Outfit
deriving DecidableEq, Inhabited

/-- Python `None` / string encoding of an optional string field. -/
def encOptStr : Option String → JVal
  | none => JVal.null
  | some s => JVal.str s

/-- The JSON object a stored item is: the keys in the order `new_item`
assigns them (Python dicts preserve insertion order when dumped). -/
def encodeItem (i : Item) : JVal :=
  JVal.obj
    [("id", JVal.str i.id), ("name", JVal.str i.name),
     ("category", JVal.str i.category), ("color", JVal.str i.color),
     ("style", JVal.arr (i.style.map JVal.str)),
     ("occasions", JVal.arr (i.occasions.map JVal.str)),
     ("seasons", JVal.arr (i.seasons.map JVal.str)),
     ("image_path", JVal.str i.image_path),
     ("tag_image_path", encOptStr i.tag_image_path),
     ("brand", JVal.str i.brand), ("size", JVal.str i.size),
     ("material", JVal.str i.material),
     ("care_instructions", JVal.arr (i.care_instructions.map JVal.str)),
     ("pattern", encOptStr i.pattern),
     ("added_date", JVal.str i.added_date)]

/-- The JSON object a saved outfit is. -/
def encodeOutfit (o : Outfit) : JVal :=
  JVal.obj
    [("id", JVal.str o.id), ("name", JVal.str o.name),
     ("items", JVal.arr (o.items.map JVal.str)),
     ("created_date", JVal.str o.created_date)]

/-- The persisted catalog document. -/
def encodeCatalog (w : Catalog) : JVal :=
  JVal.obj
    [("items", JVal.arr (w.items.map encodeItem)),
     ("outfits", JVal.arr (w.outfits.map encodeOutfit))]

/-- The file system visible to the application: the contents of
`wardrobe_data.json` (if it exists) and the set of image files present in
`clothing_images/`. -/
structure FileSystem where
  dataFile : Option String
  imageFiles : List String
deriving DecidableEq, Inhabited

/-- `save_wardrobe`: `json.dump(data, f, indent=2)` into `DATA_FILE`. -/
def save_wardrobe (w : Catalog) (fs : FileSystem) : FileSystem :=
  { fs with dataFile := some (jsonDump (encodeCatalog w)) }

/-- `load_wardrobe`: parse `DATA_FILE` if it exists, else the empty catalog
document.  `none` models an uncaught `JSONDecodeError`. -/
def load_wardrobe (fs : FileSystem) : Option JVal :=
  match fs.dataFile with
  | some text => jsonLoads text
  | none => some (JVal.obj [("items", JVal.arr []), ("outfits", JVal.arr [])])

/-! ### Randomness model

`random.random()` and `random.choice` draw from the process-global Mersenne
twister.  They are modelled by oracle streams: `floats` supplies the unit
draws consumed by `random.random()` and `picks` the indices consumed by
`random.choice` (reduced modulo the sequence length).  Every property below
is proved for all streams, i.e. for every possible run of the program. -/

structure RandGen where
  floats : Nat → ℚ
  picks : Nat → Nat

structure RandState where
  fidx : Nat
  pidx : Nat
deriving DecidableEq, Inhabited

/-- One call of `random.random()`. -/
def nextFloat (g : RandGen) (s : RandState) : ℚ × RandState :=
  (g.floats s.fidx, ⟨s.fidx + 1, s.pidx⟩)

/-- One call of `random.choice(xs)` (callers guard `xs` non-empty). -/
def nextChoice {α : Type} [Inhabited α] (g : RandGen) (s : RandState) (xs : List α) :
    α × RandState :=
  (xs.getD (g.picks s.pidx % xs.length) default, ⟨s.fidx, s.pidx + 1⟩)

/-- Python dict assignment `m[k] = v`: overwrite in place if the key exists,
else append. -/
def dinsert {α : Type} (m : List (String × α)) (k : String) (v : α) : List (String × α) :=
  if m.any (fun p => p.1 == k) then
    m.map (fun p => if p.1 == k then (k, v) else p)
  else m ++ [(k, v)]

/-- The `for category in include_categories` loop of
`generate_random_outfit`. -/
def gro_loop (g : RandGen) (items : List Item) :
    List String → List (String × Item) → RandState → List (String × Item)
  | [], outfit, _ => outfit
  | c :: cs, outfit, s =>
    let category_items := items.filter (fun i => i.category == c)
    if category_items.isEmpty then gro_loop g items cs outfit s
    else
      let (x, s') := nextChoice g s category_items
      gro_loop g items cs (dinsert outfit c x) s'

/-- `generate_random_outfit(wardrobe, include_categories)`. -/
def generate_random_outfit (g : RandGen) (w : Catalog) (include_categories : List String)
    (s : RandState) : List (String × Item) :=
  gro_loop g w.items include_categories [] s

/-- Python truthiness of the `occasion` / `season` arguments
(`if occasion:` is false for `None` and for the empty string). -/
def truthy : Option String → Bool
  | none => false
  | some s => s != ""

/-- The occasion/season filter stage of `generate_smart_outfit`
(before the too-few-items fallback). -/
def smartFiltered (w : Catalog) (occasion season : Option String) : List Item :=
  let items0 := w.items
  let items1 :=
    if truthy occasion then
      items0.filter (fun i => i.occasions.contains (occasion.getD ""))
    else items0
  if truthy season then
    items1.filter (fun i => i.seasons.contains (season.getD "") ||
      i.seasons.contains "All Season")
  else items1

/-- The candidate pool after the `len(items) < 3` fallback. -/
def smartPool (w : Catalog) (occasion season : Option String) : List Item :=
  if (smartFiltered w occasion season).length < 3 then w.items
  else smartFiltered w occasion season

/-- The top + bottom branch of `generate_smart_outfit`: one top picked if
any exist, then independently one bottom picked if any exist. -/
def smartSeparates (g : RandGen) (items : List Item) (s1 : RandState) :
    List (String × Item) × RandState :=
  let tops := items.filter (fun i => i.category == "Top")
  let bottoms := items.filter (fun i => i.category == "Bottom")
  let (o1, s2) :=
    if tops.isEmpty then (([] : List (String × Item)), s1)
    else
      let (x, s') := nextChoice g s1 tops
      (dinsert [] "Top" x, s')
  if bottoms.isEmpty then (o1, s2)
  else
    let (x, s') := nextChoice g s2 bottoms
    (dinsert o1 "Bottom" x, s')

/-- Dress-vs-separates selection of `generate_smart_outfit`:
`if dresses and random.random() > 0.5` (the draw is consumed only when
dresses exist, by short-circuiting), else the top + bottom branch. -/
def smartBase (g : RandGen) (items : List Item) (s : RandState) :
    List (String × Item) × RandState :=
  let dresses := items.filter (fun i => i.category == "Dress/Jumpsuit")
  let (useDress, s1) :=
    if dresses.isEmpty then (false, s)
    else
      let (d, s') := nextFloat g s
      (decide (d > mkRat 1 2), s')
  if useDress then
    let (x, s2) := nextChoice g s1 dresses
    (dinsert [] "Dress/Jumpsuit" x, s2)
  else
    smartSeparates g items s1

/-- Shoes: always included when any exist. -/
def addShoes (g : RandGen) (items : List Item) (p : List (String × Item) × RandState) :
    List (String × Item) × RandState :=
  let shoes := items.filter (fun i => i.category == "Shoes")
  if shoes.isEmpty then p
  else
    let (x, s') := nextChoice g p.2 shoes
    (dinsert p.1 "Shoes" x, s')

/-- Outerwear: `if outerwear and random.random() > 0.6`. -/
def addOuterwear (g : RandGen) (items : List Item) (p : List (String × Item) × RandState) :
    List (String × Item) × RandState :=
  let outerwear := items.filter (fun i => i.category == "Outerwear")
  if outerwear.isEmpty then p
  else
    let (d, s1) := nextFloat g p.2
    if d > mkRat 3 5 then
      let (x, s2) := nextChoice g s1 outerwear
      (dinsert p.1 "Outerwear" x, s2)
    else (p.1, s1)

/-- Accessory: `if accessories and random.random() > 0.5`. -/
def addAccessory (g : RandGen) (items : List Item) (p : List (String × Item) × RandState) :
    List (String × Item) × RandState :=
  let accessories := items.filter (fun i => i.category == "Accessory")
  if accessories.isEmpty then p
  else
    let (d, s1) := nextFloat g p.2
    if d > mkRat 1 2 then
      let (x, s2) := nextChoice g s1 accessories
      (dinsert p.1 "Accessory" x, s2)
    else (p.1, s1)

/-- `generate_smart_outfit(wardrobe, occasion, season)`, assembled from its
stages in source order. -/
def generate_smart_outfit (g : RandGen) (w : Catalog) (occasion season : Option String)
    (s : RandState) : List (String × Item) :=
  let items := smartPool w occasion season
  (addAccessory g items (addOuterwear g items (addShoes g items (smartBase g items s)))).1

/-! ### AI response handling -/

/-- Whitespace stripped by Python `str.strip()` (ASCII part). -/
def isPySpace (c : Char) : Bool :=
  c == ' ' || c == '\t' || c == '\n' || c == '\r' || c == '\x0b' || c == '\x0c'

def pyStripL (l : List Char) : List Char :=
  ((l.dropWhile isPySpace).reverse.dropWhile isPySpace).reverse

/-- Python `content.strip()`. -/
def pyStrip (s : String) : String :=
  String.mk (pyStripL s.data)

/-- Python `s.startswith(pre)`. -/
def startsW (s pre : String) : Bool :=
  pre.data.isPrefixOf s.data

/-- Python `s.endswith(suf)`. -/
def endsW (s suf : String) : Bool :=
  suf.data.isSuffixOf s.data

/-- Python `s[n:]`. -/
def dropS (s : String) (n : Nat) : String :=
  String.mk (s.data.drop n)

/-- Python `s[:-n]`. -/
def dropEndS (s : String) (n : Nat) : String :=
  String.mk (s.data.take (s.data.length - n))

/-- The code-fence cleanup performed on the model response in
`analyze_garment_image` / `analyze_tag_image` before `json.loads`:
strip, drop a leading ```json, then (also) a leading ```, then a
trailing ```, strip again. -/
def cleanupResponse (content : String) : String :=
  let c0 := pyStrip content
  let c1 := if startsW c0 "```json" then dropS c0 7 else c0
  let c2 := if startsW c1 "```" then dropS c1 3 else c1
  let c3 := if endsW c2 "```" then dropEndS c2 3 else c2
  pyStrip c3

/-- The cleanup as the specification describes it, for comparison with
`cleanupResponse`: exactly one optional leading triple-backtick fence (with
optional "json" language tag) and one optional trailing fence are
stripped. -/
def specCleanupResponse (content : String) : String :=
  let c0 := pyStrip content
  let c1 :=
    if startsW c0 "```json" then dropS c0 7
    else if startsW c0 "```" then dropS c0 3
    else c0
  let c2 := if endsW c1 "```" then dropEndS c1 3 else c1
  pyStrip c2

/-- Outcome of the `httpx.post` call: a network error (any exception) or a
response with a status code and the extracted message content. -/
inductive ApiResult where
  | netError : ApiResult
  | response : Nat → String → ApiResult

/-- `analyze_garment_image`: on HTTP 200, clean the content and
`json.loads` it; any parse failure or non-200 status or exception yields
`None`. -/
def analyze_garment_image (r : ApiResult) : Option JVal :=
  match r with
  | ApiResult.netError => none
  | ApiResult.response status content =>
    if status = 200 then jsonLoads (cleanupResponse content) else none

/-- `analyze_tag_image`: identical response handling. -/
def analyze_tag_image (r : ApiResult) : Option JVal :=
  match r with
  | ApiResult.netError => none
  | ApiResult.response status content =>
    if status = 200 then jsonLoads (cleanupResponse content) else none

/-! ### UI handlers that mutate the catalog -/

/-- The fixed enumerations of the application. -/
def CATEGORIES : List String :=
  ["Top", "Bottom", "Shoes", "Outerwear", "Accessory", "Dress/Jumpsuit"]

def OCCASIONS : List String :=
  ["Everyday", "Work", "Date Night", "Party", "Workout", "Outdoor", "Formal Event", "Loungewear"]

def SEASONS : List String :=
  ["Spring", "Summer", "Fall", "Winter", "All Season"]

/-- The Save Outfit button handler: an empty name is rejected with an error
message and nothing changes; otherwise one outfit record is appended and the
catalog saved.  `now_ts` is `datetime.now().strftime('%Y%m%d%H%M%S')` and
`now_iso` is `datetime.now().isoformat()`.  The `Bool` reports success. -/
def saveOutfitHandler (w : Catalog) (fs : FileSystem) (outfit_name : String)
    (current_outfit : List (String × Item)) (now_ts now_iso : String) :
    Catalog × FileSystem × Bool :=
  if outfit_name != "" then
    let saved_outfit : Outfit :=
      { id := "outfit_" ++ now_ts
        name := outfit_name
        items := current_outfit.map (fun p => p.2.id)
        created_date := now_iso }
    let w' := { w with outfits := w.outfits ++ [saved_outfit] }
    (w', save_wardrobe w' fs, true)
  else (w, fs, false)

/-- The My Closet delete handler: filter the item's id out of `items`,
remove its image file if present, and save. -/
def deleteItemHandler (w : Catalog) (fs : FileSystem) (item : Item) :
    Catalog × FileSystem :=
  let w' := { w with items := w.items.filter (fun i => i.id != item.id) }
  let fs1 :=
    if fs.imageFiles.contains item.image_path then
      { fs with imageFiles := fs.imageFiles.filter (fun p => p != item.image_path) }
    else fs
  (w', save_wardrobe w' fs1)

/-- The Saved Outfits display: `[item for item in wardrobe["items"] if
item["id"] in outfit_data["items"]]`. -/
def displayOutfitItems (w : Catalog) (outfit_data : Outfit) : List Item :=
  w.items.filter (fun i => outfit_data.items.contains i.id)

/-- The Saved Outfits delete handler: filter the outfit's id out of
`outfits` and save. -/
def deleteOutfitHandler (w : Catalog) (fs : FileSystem) (outfit_data : Outfit) :
    Catalog × FileSystem :=
  let w' := { w with outfits := w.outfits.filter (fun o => o.id != outfit_data.id) }
  (w', save_wardrobe w' fs)


/-! ### Concrete fixtures used in example scenarios and counterexamples -/

/-- An item with the given id, category, occasions and seasons, and the
defaults the Add Clothes form would produce for the other fields. -/
def mkItem (id category : String) (occasions seasons : List String) : Item :=
  { id := id, name := id, category := category, color := "Black", style := ["Casual"],
    occasions := occasions, seasons := seasons,
    image_path := "clothing_images/" ++ id ++ ".jpg", tag_image_path := none,
    brand := "", size := "", material := "", care_instructions := [], pattern := none,
    added_date := "2026-01-01T00:00:00" }

def itemA : Item := mkItem "a" "Top" ["Everyday"] ["All Season"]

def itemB : Item := mkItem "b" "Bottom" ["Everyday"] ["All Season"]

def itemC : Item := mkItem "c" "Shoes" ["Everyday"] ["All Season"]

/-- Catalog with exactly one Top (id a), one Bottom (id b), one Shoes (id c). -/
def catalogABC : Catalog := { items := [itemA, itemB, itemC], outfits := [] }

def itemP1 : Item := mkItem "p1" "Accessory" ["Party"] ["All Season"]

def itemP2 : Item := mkItem "p2" "Accessory" ["Party"] ["All Season"]

def itemP3 : Item := mkItem "p3" "Accessory" ["Party"] ["All Season"]

/-- Catalog spanning Top+Bottom+Shoes plus three Party accessories. -/
def catalogC6 : Catalog :=
  { items := [itemA, itemB, itemC, itemP1, itemP2, itemP3], outfits := [] }

/-- A random source whose unit draws are all 0.3 and whose choice indices
are all 0: one possible run of the Mersenne twister. -/
def gZero : RandGen := { floats := fun _ => mkRat 3 10, picks := fun _ => 0 }

def rs0 : RandState := ⟨0, 0⟩

/-- An item that has both a garment image and a tag image on disk. -/
def itemWithTag : Item :=
  { mkItem "t" "Top" ["Everyday"] ["All Season"] with
    tag_image_path := some "clothing_images/t_tag.jpg" }

def catalogWithTag : Catalog := { items := [itemWithTag], outfits := [] }

def fsWithTag : FileSystem :=
  { dataFile := none, imageFiles := ["clothing_images/t.jpg", "clothing_images/t_tag.jpg"] }

theorem skipWs_cons_of_ws {c : Char} (h : isJsonWs c = true) (l : List Char) :
    skipWs (c :: l) = skipWs l := by
  simp [skipWs, List.dropWhile_cons, h]

theorem skipWs_cons_of_not {c : Char} (h : isJsonWs c = false) (l : List Char) :
    skipWs (c :: l) = c :: l := by
  simp [skipWs, List.dropWhile_cons, h]

theorem skipWs_replicate_space (k : Nat) (l : List Char) :
    skipWs (List.replicate k ' ' ++ l) = skipWs l := by
  induction k with
  | zero => simp
  | succ k ih => rw [List.replicate_succ, List.cons_append, skipWs_cons_of_ws (by decide)]; exact ih

theorem skipWs_ind (n : Nat) (l : List Char) : skipWs (ind n ++ l) = skipWs l :=
  skipWs_replicate_space _ _

theorem skipWs_newline (l : List Char) : skipWs ('\n' :: l) = skipWs l :=
  skipWs_cons_of_ws (by decide) l

theorem skipWs_idem (l : List Char) : skipWs (skipWs l) = skipWs l := by
  induction l with
  | nil => rfl
  | cons c t ih =>
    cases h : isJsonWs c
    · rw [skipWs_cons_of_not h, skipWs_cons_of_not h]
    · rw [skipWs_cons_of_ws h]; exact ih

theorem char_toNat_valid (c : Char) :
    c.toNat < 0xd800 ∨ (0xdfff < c.toNat ∧ c.toNat < 0x110000) := by
  rcases c.valid with h | ⟨h1, h2⟩
  · exact Or.inl (UInt32.toNat_lt_of_lt (by decide) h)
  · exact Or.inr ⟨UInt32.lt_toNat_of_lt (by decide) h1, UInt32.toNat_lt_of_lt (by decide) h2⟩

theorem hexVal_hexDigitChar {d : Nat} (h : d < 16) :
    hexVal (hexDigitChar d) = some d := by
  interval_cases d <;> decide

theorem hex4_reconstruct {n : Nat} (h : n < 0x10000) :
    4096 * (n / 4096 % 16) + 256 * (n / 256 % 16) + 16 * (n / 16 % 16) + n % 16 = n := by
  omega

theorem parseStr_plain {c : Char} (hq : c ≠ '"') (hb : c ≠ '\\') (hc : 0x20 ≤ c.toNat)
    (t : List Char) : parseStr (c :: t) = consStr c (parseStr t) := by
  rw [parseStr.eq_def]
  split
  · simp_all
  · simp_all
  · simp_all
  · rename_i heq
    injection heq with h1 h2
    subst h1; subst h2
    rw [if_neg (by omega)]

theorem parseStr_u {h1 h2 h3 h4 : Char} {a b c d : Nat}
    (e1 : hexVal h1 = some a) (e2 : hexVal h2 = some b)
    (e3 : hexVal h3 = some c) (e4 : hexVal h4 = some d)
    (hn : 4096 * a + 256 * b + 16 * c + d < 0xd800 ∨
          0xe000 ≤ 4096 * a + 256 * b + 16 * c + d)
    (t : List Char) :
    parseStr ('\\' :: 'u' :: h1 :: h2 :: h3 :: h4 :: t) =
      consStr (Char.ofNat (4096 * a + 256 * b + 16 * c + d)) (parseStr t) := by
  rw [parseStr.eq_def]
  simp only [e1, e2, e3, e4]
  rw [if_pos hn]

theorem parseStr_u_pair {h1 h2 h3 h4 g1 g2 g3 g4 : Char} {a b c d a2 b2 c2 d2 : Nat}
    (e1 : hexVal h1 = some a) (e2 : hexVal h2 = some b)
    (e3 : hexVal h3 = some c) (e4 : hexVal h4 = some d)
    (f1 : hexVal g1 = some a2) (f2 : hexVal g2 = some b2)
    (f3 : hexVal g3 = some c2) (f4 : hexVal g4 = some d2)
    (hn1 : 0xd800 ≤ 4096 * a + 256 * b + 16 * c + d)
    (hn2 : 4096 * a + 256 * b + 16 * c + d < 0xdc00)
    (hm1 : 0xdc00 ≤ 4096 * a2 + 256 * b2 + 16 * c2 + d2)
    (hm2 : 4096 * a2 + 256 * b2 + 16 * c2 + d2 < 0xe000)
    (t : List Char) :
    parseStr ('\\' :: 'u' :: h1 :: h2 :: h3 :: h4 ::
              '\\' :: 'u' :: g1 :: g2 :: g3 :: g4 :: t) =
      consStr (Char.ofNat (0x10000 + ((4096 * a + 256 * b + 16 * c + d) - 0xd800) * 0x400 +
        ((4096 * a2 + 256 * b2 + 16 * c2 + d2) - 0xdc00))) (parseStr t) := by
  rw [parseStr.eq_def]
  simp only [e1, e2, e3, e4]
  rw [if_neg (by omega), if_pos (by omega)]
  simp only [f1, f2, f3, f4]
  rw [if_pos (by omega)]

theorem parseStr_escapeChar (c : Char) (t : List Char) :
    parseStr (escapeChar c ++ t) = consStr c (parseStr t) := by
  by_cases h1 : c = '"'
  · subst h1; rfl
  by_cases h2 : c = '\\'
  · subst h2; rfl
  by_cases h3 : c = '\x08'
  · subst h3; rfl
  by_cases h4 : c = '\x09'
  · subst h4; rfl
  by_cases h5 : c = '\x0a'
  · subst h5; rfl
  by_cases h6 : c = '\x0c'
  · subst h6; rfl
  by_cases h7 : c = '\x0d'
  · subst h7; rfl
  by_cases h8 : 0x20 ≤ c.toNat ∧ c.toNat ≤ 0x7e
  · rw [show escapeChar c = [c] by
      simp only [escapeChar, if_neg h1, if_neg h2, if_neg h3, if_neg h4, if_neg h5,
        if_neg h6, if_neg h7, if_pos h8]]
    exact parseStr_plain h1 h2 h8.1 t
  by_cases h9 : c.toNat < 0x10000
  · rw [show escapeChar c = '\\' :: 'u' :: hex4 c.toNat by
      simp only [escapeChar, if_neg h1, if_neg h2, if_neg h3, if_neg h4, if_neg h5,
        if_neg h6, if_neg h7, if_neg h8, if_pos h9]]
    have hv := char_toNat_valid c
    rw [show ('\\' :: 'u' :: hex4 c.toNat) ++ t =
        '\\' :: 'u' :: hexDigitChar (c.toNat / 4096 % 16) :: hexDigitChar (c.toNat / 256 % 16) ::
          hexDigitChar (c.toNat / 16 % 16) :: hexDigitChar (c.toNat % 16) :: t from rfl]
    rw [parseStr_u (hexVal_hexDigitChar (Nat.mod_lt _ (by omega)))
      (hexVal_hexDigitChar (Nat.mod_lt _ (by omega)))
      (hexVal_hexDigitChar (Nat.mod_lt _ (by omega)))
      (hexVal_hexDigitChar (Nat.mod_lt _ (by omega)))
      (by omega) t]
    rw [show 4096 * (c.toNat / 4096 % 16) + 256 * (c.toNat / 256 % 16) +
        16 * (c.toNat / 16 % 16) + c.toNat % 16 = c.toNat from hex4_reconstruct (by omega)]
    rw [Char.ofNat_toNat]
  · have hv := char_toNat_valid c
    rw [show escapeChar c =
        '\\' :: 'u' :: hex4 (0xd800 + (c.toNat - 0x10000) / 0x400) ++
          ('\\' :: 'u' :: hex4 (0xdc00 + (c.toNat - 0x10000) % 0x400)) by
      simp only [escapeChar, if_neg h1, if_neg h2, if_neg h3, if_neg h4, if_neg h5,
        if_neg h6, if_neg h7, if_neg h8, if_neg h9]]
    have hhi : 0xd800 + (c.toNat - 0x10000) / 0x400 < 0x10000 := by omega
    have hlo : 0xdc00 + (c.toNat - 0x10000) % 0x400 < 0x10000 := by
      have := Nat.mod_lt (c.toNat - 0x10000) (show 0 < 0x400 by omega)
      omega
    rw [show ('\\' :: 'u' :: hex4 (0xd800 + (c.toNat - 0x10000) / 0x400) ++
          ('\\' :: 'u' :: hex4 (0xdc00 + (c.toNat - 0x10000) % 0x400))) ++ t =
        '\\' :: 'u' :: hexDigitChar ((0xd800 + (c.toNat - 0x10000) / 0x400) / 4096 % 16) ::
          hexDigitChar ((0xd800 + (c.toNat - 0x10000) / 0x400) / 256 % 16) ::
          hexDigitChar ((0xd800 + (c.toNat - 0x10000) / 0x400) / 16 % 16) ::
          hexDigitChar ((0xd800 + (c.toNat - 0x10000) / 0x400) % 16) ::
          '\\' :: 'u' :: hexDigitChar ((0xdc00 + (c.toNat - 0x10000) % 0x400) / 4096 % 16) ::
          hexDigitChar ((0xdc00 + (c.toNat - 0x10000) % 0x400) / 256 % 16) ::
          hexDigitChar ((0xdc00 + (c.toNat - 0x10000) % 0x400) / 16 % 16) ::
          hexDigitChar ((0xdc00 + (c.toNat - 0x10000) % 0x400) % 16) :: t from rfl]
    rw [parseStr_u_pair
      (hexVal_hexDigitChar (Nat.mod_lt _ (by omega)))
      (hexVal_hexDigitChar (Nat.mod_lt _ (by omega)))
      (hexVal_hexDigitChar (Nat.mod_lt _ (by omega)))
      (hexVal_hexDigitChar (Nat.mod_lt _ (by omega)))
      (hexVal_hexDigitChar (Nat.mod_lt _ (by omega)))
      (hexVal_hexDigitChar (Nat.mod_lt _ (by omega)))
      (hexVal_hexDigitChar (Nat.mod_lt _ (by omega)))
      (hexVal_hexDigitChar (Nat.mod_lt _ (by omega)))
      (by rw [hex4_reconstruct hhi]; omega)
      (by rw [hex4_reconstruct hhi]; omega)
      (by rw [hex4_reconstruct hlo]; omega)
      (by rw [hex4_reconstruct hlo]; omega) t]
    rw [hex4_reconstruct hhi, hex4_reconstruct hlo]
    have hmod : (c.toNat - 0x10000) % 0x400 + 0x400 * ((c.toNat - 0x10000) / 0x400) =
        c.toNat - 0x10000 := Nat.mod_add_div _ _
    rw [show 0x10000 + (0xd800 + (c.toNat - 0x10000) / 0x400 - 0xd800) * 0x400 +
        (0xdc00 + (c.toNat - 0x10000) % 0x400 - 0xdc00) = c.toNat by omega]
    rw [Char.ofNat_toNat]

theorem parseStr_escString (l : List Char) (rest : List Char) :
    parseStr ((l.map escapeChar).flatten ++ '"' :: rest) = some (l, rest) := by
  induction l with
  | nil => rfl
  | cons c t ih =>
    simp only [List.map_cons, List.flatten_cons, List.append_assoc]
    rw [parseStr_escapeChar, ih]
    rfl

theorem ser_head (lvl : Nat) (v : JVal) :
    ∃ c t, ser lvl v = c :: t ∧ (c = 'n' ∨ c = '"' ∨ c = '[' ∨ c = '\x7b') := by
  cases v with
  | null => refine ⟨'n', ['u', 'l', 'l'], ?_, Or.inl rfl⟩; simp [ser]
  | str s => refine ⟨'"', escString s ++ ['"'], ?_, Or.inr (Or.inl rfl)⟩; simp [ser]
  | arr xs =>
    cases xs with
    | nil => refine ⟨'[', [']'], ?_, Or.inr (Or.inr (Or.inl rfl))⟩; simp [ser]
    | cons x xs =>
      refine ⟨'[', serElemsNE (lvl + 1) x xs ++ '\n' :: (ind lvl ++ [']']), ?_,
        Or.inr (Or.inr (Or.inl rfl))⟩
      simp [ser]
  | obj kvs =>
    cases kvs with
    | nil => refine ⟨'\x7b', ['\x7d'], ?_, Or.inr (Or.inr (Or.inr rfl))⟩; simp [ser]
    | cons kv kvs =>
      obtain ⟨k, v⟩ := kv
      refine ⟨'\x7b', serMembersNE (lvl + 1) k v kvs ++ '\n' :: (ind lvl ++ ['\x7d']), ?_,
        Or.inr (Or.inr (Or.inr rfl))⟩
      simp [ser]

theorem parseVal_null (f : Nat) (rest : List Char) :
    parseVal (f + 1) (['n', 'u', 'l', 'l'] ++ rest) = some (.null, rest) := rfl

theorem parseVal_quote (f : Nat) (l : List Char) :
    parseVal (f + 1) ('"' :: l) =
      (match parseStr l with
       | some (cs, r) => some (JVal.str (String.mk cs), r)
       | none => none) := rfl

theorem parseVal_arr_nil (f : Nat) {l r : List Char} (h : skipWs l = ']' :: r) :
    parseVal (f + 1) ('[' :: l) = some (.arr [], r) := by
  have e : parseVal (f + 1) ('[' :: l) =
      (match skipWs l with
       | ']' :: r => some (JVal.arr [], r)
       | _ =>
         match parseElems f l with
         | some (xs, r) => some (JVal.arr xs, r)
         | none => none) := rfl
  rw [e, h]
  rfl

theorem parseVal_arr_go (f : Nat) {l t : List Char} {c : Char}
    (h : skipWs l = c :: t) (hc : c = 'n' ∨ c = '"' ∨ c = '[' ∨ c = '\x7b') :
    parseVal (f + 1) ('[' :: l) =
      (match parseElems f l with
       | some (xs, r) => some (JVal.arr xs, r)
       | none => none) := by
  have e : parseVal (f + 1) ('[' :: l) =
      (match skipWs l with
       | ']' :: r => some (JVal.arr [], r)
       | _ =>
         match parseElems f l with
         | some (xs, r) => some (JVal.arr xs, r)
         | none => none) := rfl
  rw [e, h]
  rcases hc with h' | h' | h' | h' <;> subst h' <;> rfl

theorem parseVal_obj_nil (f : Nat) {l r : List Char} (h : skipWs l = '\x7d' :: r) :
    parseVal (f + 1) ('\x7b' :: l) = some (.obj [], r) := by
  have e : parseVal (f + 1) ('\x7b' :: l) =
      (match skipWs l with
       | '\x7d' :: r => some (JVal.obj [], r)
       | _ =>
         match parseMembers f l with
         | some (kvs, r) => some (JVal.obj kvs, r)
         | none => none) := rfl
  rw [e, h]
  rfl

theorem parseVal_obj_go (f : Nat) {l t : List Char} {c : Char}
    (h : skipWs l = c :: t) (hc : c = '"') :
    parseVal (f + 1) ('\x7b' :: l) =
      (match parseMembers f l with
       | some (kvs, r) => some (JVal.obj kvs, r)
       | none => none) := by
  have e : parseVal (f + 1) ('\x7b' :: l) =
      (match skipWs l with
       | '\x7d' :: r => some (JVal.obj [], r)
       | _ =>
         match parseMembers f l with
         | some (kvs, r) => some (JVal.obj kvs, r)
         | none => none) := rfl
  rw [e, h]
  subst hc
  rfl

theorem parseVal_eq_body (f : Nat) (l : List Char) :
    parseVal (f + 1) l =
      (match skipWs l with
       | 'n' :: 'u' :: 'l' :: 'l' :: rest => some (.null, rest)
       | '"' :: rest =>
         match parseStr rest with
         | some (cs, r) => some (.str (String.mk cs), r)
         | none => none
       | '[' :: rest =>
         match skipWs rest with
         | ']' :: r => some (.arr [], r)
         | _ =>
           match parseElems f rest with
           | some (xs, r) => some (.arr xs, r)
           | none => none
       | '\x7b' :: rest =>
         match skipWs rest with
         | '\x7d' :: r => some (.obj [], r)
         | _ =>
           match parseMembers f rest with
           | some (kvs, r) => some (.obj kvs, r)
           | none => none
       | _ => none) := rfl

theorem parseVal_congr_skipWs (f : Nat) (l l' : List Char) (h : skipWs l = skipWs l') :
    parseVal f l = parseVal f l' := by
  cases f with
  | zero => rfl
  | succ f => rw [parseVal_eq_body, parseVal_eq_body, h]

theorem skipWs_ws_ser (lvlI lvlS : Nat) (v : JVal) (z : List Char) :
    skipWs ('\n' :: (ind lvlI ++ ser lvlS v) ++ z) = ser lvlS v ++ z := by
  obtain ⟨c, t, hser, hc⟩ := ser_head lvlS v
  have hnws : isJsonWs c = false := by rcases hc with h | h | h | h <;> subst h <;> rfl
  rw [List.cons_append, skipWs_newline, List.append_assoc, skipWs_ind, hser,
    List.cons_append, skipWs_cons_of_not hnws, ← List.cons_append, ← hser]

theorem skipWs_ser (lvlS : Nat) (v : JVal) (z : List Char) :
    skipWs (ser lvlS v ++ z) = ser lvlS v ++ z := by
  obtain ⟨c, t, hser, hc⟩ := ser_head lvlS v
  have hnws : isJsonWs c = false := by rcases hc with h | h | h | h <;> subst h <;> rfl
  rw [hser, List.cons_append, skipWs_cons_of_not hnws]

theorem JVal.memInd (P : JVal → Prop)
    (hnull : P .null) (hstr : ∀ s, P (.str s))
    (harr : ∀ xs, (∀ x ∈ xs, P x) → P (.arr xs))
    (hobj : ∀ kvs, (∀ p ∈ kvs, P p.2) → P (.obj kvs)) : ∀ v, P v
  | .null => hnull
  | .str s => hstr s
  | .arr xs => harr xs (fun x hx => JVal.memInd P hnull hstr harr hobj x)
  | .obj kvs => hobj kvs (fun p hp => JVal.memInd P hnull hstr harr hobj p.2)
termination_by v => sizeOf v
decreasing_by
  · have := List.sizeOf_lt_of_mem hx; simp; omega
  · have := List.sizeOf_lt_of_mem hp; obtain ⟨a, b⟩ := p; simp_all; omega

theorem parseElems_ser (lvlE lvlC : Nat) (xs : List JVal) (x : JVal)
    (IH : ∀ y ∈ x :: xs, ∀ fuel lvl rest, fsize y ≤ fuel →
      parseVal fuel (ser lvl y ++ rest) = some (y, rest)) :
    ∀ fuel rest, esize (x :: xs) ≤ fuel →
      parseElems fuel (serElemsNE lvlE x xs ++ '\n' :: (ind lvlC ++ (']' :: rest))) =
        some (x :: xs, rest) := by
  induction xs generalizing x with
  | nil =>
    intro fuel rest hfuel
    have hx : fsize x ≤ fuel - 1 := by simp [esize] at hfuel; omega
    obtain ⟨f, rfl⟩ : ∃ f, fuel = f + 1 := ⟨fuel - 1, by simp [esize] at hfuel; omega⟩
    rw [show parseElems (f + 1) (serElemsNE lvlE x [] ++ '\n' :: (ind lvlC ++ (']' :: rest))) =
        (match parseVal f (serElemsNE lvlE x [] ++ '\n' :: (ind lvlC ++ (']' :: rest))) with
         | some (v, rest') =>
           (match skipWs rest' with
            | ',' :: r =>
              (match parseElems f r with
               | some (ys, r2) => some (v :: ys, r2)
               | none => none)
            | ']' :: r => some ([v], r)
            | _ => none)
         | none => none) from rfl]
    rw [show serElemsNE lvlE x [] ++ '\n' :: (ind lvlC ++ (']' :: rest)) =
        '\n' :: (ind lvlE ++ ser lvlE x) ++ ('\n' :: (ind lvlC ++ (']' :: rest))) by
      simp [serElemsNE, serArrTail]]
    rw [parseVal_congr_skipWs f
      ('\n' :: (ind lvlE ++ ser lvlE x) ++ ('\n' :: (ind lvlC ++ (']' :: rest))))
      (ser lvlE x ++ ('\n' :: (ind lvlC ++ (']' :: rest))))
      (by rw [skipWs_ws_ser, skipWs_ser])]
    rw [IH x (by simp) f lvlE _ (by omega)]
    dsimp only
    rw [skipWs_newline, skipWs_ind, skipWs_cons_of_not (by decide)]
    rfl
  | cons y ys ihy =>
    intro fuel rest hfuel
    have hx : fsize x ≤ fuel - 1 := by simp [esize] at hfuel ⊢; omega
    obtain ⟨f, rfl⟩ : ∃ f, fuel = f + 1 := ⟨fuel - 1, by simp [esize] at hfuel; omega⟩
    rw [show parseElems (f + 1)
          (serElemsNE lvlE x (y :: ys) ++ '\n' :: (ind lvlC ++ (']' :: rest))) =
        (match parseVal f (serElemsNE lvlE x (y :: ys) ++ '\n' :: (ind lvlC ++ (']' :: rest))) with
         | some (v, rest') =>
           (match skipWs rest' with
            | ',' :: r =>
              (match parseElems f r with
               | some (ys', r2) => some (v :: ys', r2)
               | none => none)
            | ']' :: r => some ([v], r)
            | _ => none)
         | none => none) from rfl]
    rw [show serElemsNE lvlE x (y :: ys) ++ '\n' :: (ind lvlC ++ (']' :: rest)) =
        '\n' :: (ind lvlE ++ ser lvlE x) ++
          (',' :: (serElemsNE lvlE y ys ++ '\n' :: (ind lvlC ++ (']' :: rest)))) by
      simp [serElemsNE, serArrTail]]
    rw [parseVal_congr_skipWs f
      ('\n' :: (ind lvlE ++ ser lvlE x) ++
        (',' :: (serElemsNE lvlE y ys ++ '\n' :: (ind lvlC ++ (']' :: rest)))))
      (ser lvlE x ++ (',' :: (serElemsNE lvlE y ys ++ '\n' :: (ind lvlC ++ (']' :: rest)))))
      (by rw [skipWs_ws_ser, skipWs_ser])]
    rw [IH x (by simp) f lvlE _ (by omega)]
    dsimp only
    rw [skipWs_cons_of_not (by decide)]
    show (match parseElems f (serElemsNE lvlE y ys ++ '\n' :: (ind lvlC ++ (']' :: rest))) with
          | some (ys', r2) => some (x :: ys', r2)
          | none => none) = some (x :: y :: ys, rest)
    rw [ihy y (fun z hz => IH z (by simp at hz ⊢; tauto)) f rest
      (by simp [esize] at hfuel ⊢; omega)]

theorem parseMembers_eq_body (f : Nat) (l : List Char) :
    parseMembers (f + 1) l =
      (match skipWs l with
       | '"' :: rest =>
         match parseStr rest with
         | some (ks, r1) =>
           (match skipWs r1 with
            | ':' :: r2 =>
              (match parseVal f r2 with
               | some (v, r3) =>
                 (match skipWs r3 with
                  | ',' :: r4 =>
                    (match parseMembers f r4 with
                     | some (kvs, r5) => some ((String.mk ks, v) :: kvs, r5)
                     | none => none)
                  | '\x7d' :: r4 => some ([(String.mk ks, v)], r4)
                  | _ => none)
               | none => none)
            | _ => none)
         | none => none
       | _ => none) := rfl

theorem parseMembers_congr_skipWs (f : Nat) (l l' : List Char) (h : skipWs l = skipWs l') :
    parseMembers f l = parseMembers f l' := by
  cases f with
  | zero => rfl
  | succ f => rw [parseMembers_eq_body, parseMembers_eq_body, h]

theorem parseMembers_quote (f : Nat) (l : List Char) :
    parseMembers (f + 1) ('"' :: l) =
      (match parseStr l with
       | some (ks, r1) =>
         (match skipWs r1 with
          | ':' :: r2 =>
            (match parseVal f r2 with
             | some (v, r3) =>
               (match skipWs r3 with
                | ',' :: r4 =>
                  (match parseMembers f r4 with
                   | some (kvs, r5) => some ((String.mk ks, v) :: kvs, r5)
                   | none => none)
                | '\x7d' :: r4 => some ([(String.mk ks, v)], r4)
                | _ => none)
             | none => none)
          | _ => none)
       | none => none) := rfl

theorem parseMembers_ser (lvlE lvlC : Nat) (kvs : List (String × JVal)) (k : String) (v : JVal)
    (IH : ∀ p ∈ (k, v) :: kvs, ∀ fuel lvl rest, fsize (Prod.snd p) ≤ fuel →
      parseVal fuel (ser lvl (Prod.snd p) ++ rest) = some (Prod.snd p, rest)) :
    ∀ fuel rest, msize ((k, v) :: kvs) ≤ fuel →
      parseMembers fuel (serMembersNE lvlE k v kvs ++ '\n' :: (ind lvlC ++ ('\x7d' :: rest))) =
        some ((k, v) :: kvs, rest) := by
  induction kvs generalizing k v with
  | nil =>
    intro fuel rest hfuel
    obtain ⟨f, rfl⟩ : ∃ f, fuel = f + 1 := ⟨fuel - 1, by simp [msize] at hfuel; omega⟩
    rw [show serMembersNE lvlE k v [] ++ '\n' :: (ind lvlC ++ ('\x7d' :: rest)) =
        '\n' :: (ind lvlE ++ ('"' :: ((k.data.map escapeChar).flatten ++
          '"' :: (':' :: ' ' :: (ser lvlE v ++ ('\n' :: (ind lvlC ++ ('\x7d' :: rest)))))))) by
      simp [serMembersNE, serObjTail, escString]]
    rw [parseMembers_congr_skipWs (f + 1) _
      ('"' :: ((k.data.map escapeChar).flatten ++
        '"' :: (':' :: ' ' :: (ser lvlE v ++ ('\n' :: (ind lvlC ++ ('\x7d' :: rest)))))))
      (by rw [skipWs_newline, skipWs_ind])]
    rw [parseMembers_quote, parseStr_escString]
    dsimp only
    rw [skipWs_cons_of_not (by decide)]
    show (match parseVal f (' ' :: (ser lvlE v ++ ('\n' :: (ind lvlC ++ ('\x7d' :: rest))))) with
          | some (v', r3) =>
            (match skipWs r3 with
             | ',' :: r4 =>
               (match parseMembers f r4 with
                | some (kvs', r5) => some ((String.mk k.data, v') :: kvs', r5)
                | none => none)
             | '\x7d' :: r4 => some ([(String.mk k.data, v')], r4)
             | _ => none)
          | none => none) = some ([(k, v)], rest)
    rw [parseVal_congr_skipWs f _
      (ser lvlE v ++ ('\n' :: (ind lvlC ++ ('\x7d' :: rest))))
      (by rw [skipWs_cons_of_ws (by decide)])]
    rw [IH (k, v) (by simp) f lvlE _ (by simp [msize] at hfuel; show fsize v ≤ f; omega)]
    dsimp only
    rw [skipWs_newline, skipWs_ind, skipWs_cons_of_not (by decide)]
    rfl
  | cons p kvs' ih =>
    obtain ⟨k2, v2⟩ := p
    intro fuel rest hfuel
    obtain ⟨f, rfl⟩ : ∃ f, fuel = f + 1 := ⟨fuel - 1, by simp [msize] at hfuel; omega⟩
    rw [show serMembersNE lvlE k v ((k2, v2) :: kvs') ++ '\n' :: (ind lvlC ++ ('\x7d' :: rest)) =
        '\n' :: (ind lvlE ++ ('"' :: ((k.data.map escapeChar).flatten ++
          '"' :: (':' :: ' ' :: (ser lvlE v ++
            (',' :: (serMembersNE lvlE k2 v2 kvs' ++ '\n' :: (ind lvlC ++ ('\x7d' :: rest))))))))) by
      simp [serMembersNE, serObjTail, escString]]
    rw [parseMembers_congr_skipWs (f + 1) _
      ('"' :: ((k.data.map escapeChar).flatten ++
        '"' :: (':' :: ' ' :: (ser lvlE v ++
          (',' :: (serMembersNE lvlE k2 v2 kvs' ++ '\n' :: (ind lvlC ++ ('\x7d' :: rest))))))))
      (by rw [skipWs_newline, skipWs_ind])]
    rw [parseMembers_quote, parseStr_escString]
    dsimp only
    rw [skipWs_cons_of_not (by decide)]
    show (match parseVal f (' ' :: (ser lvlE v ++
            (',' :: (serMembersNE lvlE k2 v2 kvs' ++ '\n' :: (ind lvlC ++ ('\x7d' :: rest)))))) with
          | some (v', r3) =>
            (match skipWs r3 with
             | ',' :: r4 =>
               (match parseMembers f r4 with
                | some (kvs'', r5) => some ((String.mk k.data, v') :: kvs'', r5)
                | none => none)
             | '\x7d' :: r4 => some ([(String.mk k.data, v')], r4)
             | _ => none)
          | none => none) = some ((k, v) :: (k2, v2) :: kvs', rest)
    rw [parseVal_congr_skipWs f _
      (ser lvlE v ++ (',' :: (serMembersNE lvlE k2 v2 kvs' ++ '\n' :: (ind lvlC ++ ('\x7d' :: rest)))))
      (by rw [skipWs_cons_of_ws (by decide)])]
    rw [IH (k, v) (by simp) f lvlE _ (by simp [msize] at hfuel; show fsize v ≤ f; omega)]
    dsimp only
    rw [skipWs_cons_of_not (by decide)]
    show (match parseMembers f (serMembersNE lvlE k2 v2 kvs' ++ '\n' :: (ind lvlC ++ ('\x7d' :: rest))) with
          | some (kvs'', r5) => some ((String.mk k.data, v) :: kvs'', r5)
          | none => none) = some ((k, v) :: (k2, v2) :: kvs', rest)
    rw [ih k2 v2 (fun q hq => IH q (by simp at hq ⊢; tauto)) f rest
      (by simp [msize] at hfuel ⊢; omega)]

theorem parse_ser : ∀ v : JVal, ∀ fuel lvl rest, fsize v ≤ fuel →
    parseVal fuel (ser lvl v ++ rest) = some (v, rest) := by
  intro v
  induction v using JVal.memInd with
  | hnull =>
    intro fuel lvl rest hfuel
    obtain ⟨f, rfl⟩ : ∃ f, fuel = f + 1 := ⟨fuel - 1, by simp [fsize] at hfuel; omega⟩
    rw [show ser lvl JVal.null = ['n', 'u', 'l', 'l'] by simp [ser]]
    exact parseVal_null f rest
  | hstr s =>
    intro fuel lvl rest hfuel
    obtain ⟨f, rfl⟩ : ∃ f, fuel = f + 1 := ⟨fuel - 1, by simp [fsize] at hfuel; omega⟩
    rw [show ser lvl (JVal.str s) ++ rest =
        '"' :: ((s.data.map escapeChar).flatten ++ '"' :: rest) by simp [ser, escString]]
    rw [parseVal_quote, parseStr_escString]
  | harr xs hmem =>
    intro fuel lvl rest hfuel
    obtain ⟨f, rfl⟩ : ∃ f, fuel = f + 1 := ⟨fuel - 1, by simp [fsize] at hfuel; omega⟩
    cases xs with
    | nil =>
      rw [show ser lvl (JVal.arr []) ++ rest = '[' :: (']' :: rest) by simp [ser]]
      exact parseVal_arr_nil f (skipWs_cons_of_not (by decide) rest)
    | cons x xs =>
      rw [show ser lvl (JVal.arr (x :: xs)) ++ rest =
          '[' :: (serElemsNE (lvl + 1) x xs ++ '\n' :: (ind lvl ++ (']' :: rest))) by
        simp [ser]]
      have e1 : serElemsNE (lvl + 1) x xs ++ '\n' :: (ind lvl ++ (']' :: rest)) =
          '\n' :: (ind (lvl + 1) ++ ser (lvl + 1) x) ++
            (serArrTail (lvl + 1) xs ++ '\n' :: (ind lvl ++ (']' :: rest))) := by
        simp [serElemsNE]
      obtain ⟨c, t, hser, hc⟩ := ser_head (lvl + 1) x
      rw [parseVal_arr_go f
        (by rw [e1, skipWs_ws_ser, hser, List.cons_append]) hc]
      rw [parseElems_ser (lvl + 1) lvl xs x hmem f rest
        (by simp [fsize] at hfuel; omega)]
  | hobj kvs hmem =>
    intro fuel lvl rest hfuel
    obtain ⟨f, rfl⟩ : ∃ f, fuel = f + 1 := ⟨fuel - 1, by simp [fsize] at hfuel; omega⟩
    cases kvs with
    | nil =>
      rw [show ser lvl (JVal.obj []) ++ rest = '\x7b' :: ('\x7d' :: rest) by simp [ser]]
      exact parseVal_obj_nil f (skipWs_cons_of_not (by decide) rest)
    | cons p kvs =>
      obtain ⟨k, v⟩ := p
      rw [show ser lvl (JVal.obj ((k, v) :: kvs)) ++ rest =
          '\x7b' :: (serMembersNE (lvl + 1) k v kvs ++ '\n' :: (ind lvl ++ ('\x7d' :: rest))) by
        simp [ser]]
      have e2 : skipWs (serMembersNE (lvl + 1) k v kvs ++ '\n' :: (ind lvl ++ ('\x7d' :: rest))) =
          '"' :: ((escString k ++ '"' :: ':' :: ' ' :: ser (lvl + 1) v) ++
            (serObjTail (lvl + 1) kvs ++ '\n' :: (ind lvl ++ ('\x7d' :: rest)))) := by
        rw [show serMembersNE (lvl + 1) k v kvs ++ '\n' :: (ind lvl ++ ('\x7d' :: rest)) =
            '\n' :: (ind (lvl + 1) ++ ('"' :: ((escString k ++ '"' :: ':' :: ' ' :: ser (lvl + 1) v) ++
              (serObjTail (lvl + 1) kvs ++ '\n' :: (ind lvl ++ ('\x7d' :: rest)))))) by
          simp [serMembersNE]]
        rw [skipWs_newline, skipWs_ind, skipWs_cons_of_not (by decide)]
      rw [parseVal_obj_go f e2 rfl]
      rw [parseMembers_ser (lvl + 1) lvl kvs k v hmem f rest
        (by simp [fsize] at hfuel; omega)]

theorem esize_le_serArrTail (xs : List JVal)
    (H : ∀ y ∈ xs, ∀ lvl, fsize y ≤ (ser lvl y).length) :
    ∀ lvl, esize xs ≤ (serArrTail lvl xs).length := by
  induction xs with
  | nil => intro lvl; simp [serArrTail, esize]
  | cons y ys ih =>
    intro lvl
    have hy := H y (by simp) lvl
    have hys := ih (fun z hz => H z (by simp [hz])) lvl
    simp [serArrTail, esize, ind] at *
    omega

theorem msize_le_serObjTail (kvs : List (String × JVal))
    (H : ∀ p ∈ kvs, ∀ lvl, fsize (Prod.snd p) ≤ (ser lvl (Prod.snd p)).length) :
    ∀ lvl, msize kvs ≤ (serObjTail lvl kvs).length := by
  induction kvs with
  | nil => intro lvl; simp [serObjTail, msize]
  | cons p kvs ih =>
    obtain ⟨k, v⟩ := p
    intro lvl
    have hv := H (k, v) (by simp) lvl
    have hkvs := ih (fun q hq => H q (by simp [hq])) lvl
    simp [serObjTail, msize, ind] at *
    omega

theorem fsize_le_ser (v : JVal) : ∀ lvl, fsize v ≤ (ser lvl v).length := by
  induction v using JVal.memInd with
  | hnull => intro lvl; simp [ser, fsize]
  | hstr s => intro lvl; simp [ser, fsize]
  | harr xs hmem =>
    intro lvl
    cases xs with
    | nil => simp [ser, fsize, esize]
    | cons x xs =>
      have hx := hmem x (by simp) (lvl + 1)
      have htail := esize_le_serArrTail xs (fun y hy => hmem y (by simp [hy])) (lvl + 1)
      simp [ser, fsize, esize, serElemsNE, ind] at *
      omega
  | hobj kvs hmem =>
    intro lvl
    cases kvs with
    | nil => simp [ser, fsize, msize]
    | cons p kvs =>
      obtain ⟨k, v⟩ := p
      have hv := hmem (k, v) (by simp) (lvl + 1)
      have htail := msize_le_serObjTail kvs (fun q hq => hmem q (by simp [hq])) (lvl + 1)
      simp [ser, fsize, msize, serMembersNE, ind] at *
      omega

/-- Round-trip fidelity of the JSON document layer: parsing the exact text
written by `json.dump(v, f, indent=2)` with the `json.load` scanner yields
`v` again. -/
theorem jsonLoads_jsonDump (v : JVal) : jsonLoads (jsonDump v) = some v := by
  unfold jsonLoads jsonDump
  rw [show (String.mk (ser 0 v)).data = ser 0 v from rfl]
  have h := parse_ser v ((ser 0 v).length + 1) 0 []
  rw [List.append_nil] at h
  rw [h (by have := fsize_le_ser v 0; omega)]
  rfl

theorem lookup_map_replace_self {α : Type} (m : List (String × α)) (k : String) (v : α)
    (h : m.any (fun p => p.1 == k) = true) :
    (m.map (fun p => if p.1 == k then (k, v) else p)).lookup k = some v := by
  induction m with
  | nil => simp at h
  | cons p t ih =>
    obtain ⟨a, x⟩ := p
    by_cases hp : a = k
    · simp [hp]
    · have h' : t.any (fun q => q.1 == k) = true := by
        simp only [List.any_cons, Bool.or_eq_true, beq_iff_eq] at h
        rcases h with h | h
        · exact absurd h hp
        · simpa using h
      have hres := ih h'
      have hka : (k == a) = false := by
        simp only [beq_eq_false_iff_ne, ne_eq]
        exact fun hh => hp hh.symm
      simp only [beq_iff_eq] at hres ⊢
      simp only [List.map_cons, if_neg hp, List.lookup_cons, hka] at hres ⊢
      exact hres

theorem lookup_map_replace_ne {α : Type} (m : List (String × α)) (k k' : String) (v : α)
    (h : k' ≠ k) :
    (m.map (fun p => if p.1 == k then (k, v) else p)).lookup k' = m.lookup k' := by
  induction m with
  | nil => simp
  | cons p t ih =>
    obtain ⟨a, x⟩ := p
    by_cases hp : a = k
    · have hk'k : (k' == k) = false := by simpa using h
      have hk'a : (k' == a) = false := by
        simp only [beq_eq_false_iff_ne, ne_eq]
        exact fun hh => h (hh.trans hp)
      simp only [beq_iff_eq] at ih ⊢
      simp only [List.map_cons, if_pos hp, List.lookup_cons, hk'k, hk'a] at ih ⊢
      exact ih
    · by_cases hk' : k' = a
      · subst hk'
        simp only [beq_iff_eq] at ih ⊢
        simp only [List.map_cons, if_neg hp, List.lookup_cons, beq_self_eq_true]
      · have hk'a : (k' == a) = false := by simpa using hk'
        simp only [beq_iff_eq] at ih ⊢
        simp only [List.map_cons, if_neg hp, List.lookup_cons, hk'a] at ih ⊢
        exact ih

theorem any_key_eq_false_lookup_none {α : Type} (m : List (String × α)) (k : String)
    (h : m.any (fun p => p.1 == k) = false) : m.lookup k = none := by
  rw [List.lookup_eq_none_iff]
  intro p hp
  have h2 := List.any_eq_false.mp h p hp
  simp only [beq_iff_eq] at h2
  simpa using fun hh : k = p.1 => h2 hh.symm

theorem lookup_dinsert_self {α : Type} (m : List (String × α)) (k : String) (v : α) :
    (dinsert m k v).lookup k = some v := by
  unfold dinsert
  split
  · rename_i h
    exact lookup_map_replace_self m k v h
  · rename_i h
    rw [List.lookup_append,
      any_key_eq_false_lookup_none m k (by simp only [Bool.not_eq_true] at h; exact h)]
    simp

theorem lookup_dinsert_ne {α : Type} (m : List (String × α)) (k k' : String) (v : α)
    (h : k' ≠ k) : (dinsert m k v).lookup k' = m.lookup k' := by
  unfold dinsert
  split
  · exact lookup_map_replace_ne m k k' v h
  · rw [List.lookup_append]
    cases hl : m.lookup k' with
    | none => simp [List.lookup_cons, show (k' == k) = false by simpa using h]
    | some x => simp

theorem count_keys_map_replace {α : Type} (m : List (String × α)) (k k' : String) (v : α)
    (hkk' : (k == k') = false) :
    ((m.map (fun p => if p.1 == k then (k, v) else p)).map Prod.fst).count k' =
      (m.map Prod.fst).count k' := by
  induction m with
  | nil => simp
  | cons p t ih =>
    obtain ⟨a, x⟩ := p
    by_cases hp : a = k
    · simp only [beq_iff_eq] at ih ⊢
      simp only [List.map_cons, if_pos hp, List.count_cons, ih, hp, hkk']
      simp [hkk']
    · simp only [beq_iff_eq] at ih ⊢
      simp only [List.map_cons, if_neg hp, List.count_cons, ih]

theorem count_keys_dinsert_ne {α : Type} (m : List (String × α)) (k k' : String) (v : α)
    (h : k' ≠ k) :
    ((dinsert m k v).map Prod.fst).count k' = (m.map Prod.fst).count k' := by
  have hkk' : (k == k') = false := by
    simp only [beq_eq_false_iff_ne, ne_eq]
    exact fun hh => h hh.symm
  unfold dinsert
  split
  · exact count_keys_map_replace m k k' v hkk'
  · rw [List.map_append, List.count_append]
    simp [List.count_cons, hkk']

theorem count_keys_dinsert_self_of_none {α : Type} (m : List (String × α)) (k : String)
    (v : α) (h : m.any (fun p => p.1 == k) = false) :
    ((dinsert m k v).map Prod.fst).count k = 1 := by
  unfold dinsert
  rw [if_neg (by simp [h])]
  have hz : (m.map Prod.fst).count k = 0 := by
    rw [List.count_eq_zero]
    intro hmem
    rw [List.mem_map] at hmem
    obtain ⟨p, hp, hpk⟩ := hmem
    have h2 := List.any_eq_false.mp h p hp
    simp [hpk] at h2
  rw [List.map_append, List.count_append, hz]
  simp

theorem mem_dinsert {α : Type} (p : String × α) (m : List (String × α)) (k : String) (v : α)
    (hp : p ∈ dinsert m k v) : p = (k, v) ∨ p ∈ m := by
  unfold dinsert at hp
  split at hp
  · rw [List.mem_map] at hp
    obtain ⟨q, hq, hqe⟩ := hp
    by_cases hqk : q.1 = k
    · left; rw [← hqe]; simp [hqk]
    · right; rw [← hqe]; simpa [hqk] using hq
  · rw [List.mem_append] at hp
    rcases hp with hp | hp
    · right; exact hp
    · left; simpa using hp

theorem dinsert_nil {α : Type} (k : String) (v : α) : dinsert [] k v = [(k, v)] := by
  simp [dinsert]

theorem smartSeparates_eq_none_none (g : RandGen) (items : List Item) (s : RandState)
    (ht : (items.filter (fun i => i.category == "Top")).isEmpty = true)
    (hb : (items.filter (fun i => i.category == "Bottom")).isEmpty = true) :
    smartSeparates g items s = ([], s) := by
  simp [smartSeparates, ht, hb]

theorem smartSeparates_eq_top_only (g : RandGen) (items : List Item) (s : RandState)
    (ht : (items.filter (fun i => i.category == "Top")).isEmpty = false)
    (hb : (items.filter (fun i => i.category == "Bottom")).isEmpty = true) :
    smartSeparates g items s =
      ([("Top", (items.filter (fun i => i.category == "Top")).getD
          (g.picks s.pidx % (items.filter (fun i => i.category == "Top")).length) default)],
       ⟨s.fidx, s.pidx + 1⟩) := by
  simp [smartSeparates, ht, hb, nextChoice, dinsert_nil]

theorem smartSeparates_eq_bottom_only (g : RandGen) (items : List Item) (s : RandState)
    (ht : (items.filter (fun i => i.category == "Top")).isEmpty = true)
    (hb : (items.filter (fun i => i.category == "Bottom")).isEmpty = false) :
    smartSeparates g items s =
      ([("Bottom", (items.filter (fun i => i.category == "Bottom")).getD
          (g.picks s.pidx % (items.filter (fun i => i.category == "Bottom")).length) default)],
       ⟨s.fidx, s.pidx + 1⟩) := by
  simp [smartSeparates, ht, hb, nextChoice, dinsert_nil]

theorem smartSeparates_eq_both (g : RandGen) (items : List Item) (s : RandState)
    (ht : (items.filter (fun i => i.category == "Top")).isEmpty = false)
    (hb : (items.filter (fun i => i.category == "Bottom")).isEmpty = false) :
    smartSeparates g items s =
      ([("Top", (items.filter (fun i => i.category == "Top")).getD
          (g.picks s.pidx % (items.filter (fun i => i.category == "Top")).length) default),
        ("Bottom", (items.filter (fun i => i.category == "Bottom")).getD
          (g.picks (s.pidx + 1) % (items.filter (fun i => i.category == "Bottom")).length) default)],
       ⟨s.fidx, s.pidx + 2⟩) := by
  simp only [smartSeparates, ht, hb, nextChoice, Bool.false_eq_true, if_false, dinsert_nil]
  rfl

theorem smartBase_eq_dress (g : RandGen) (items : List Item) (s : RandState)
    (hd : (items.filter (fun i => i.category == "Dress/Jumpsuit")).isEmpty = false)
    (hf : g.floats s.fidx > mkRat 1 2) :
    smartBase g items s =
      ([("Dress/Jumpsuit", (items.filter (fun i => i.category == "Dress/Jumpsuit")).getD
          (g.picks s.pidx % (items.filter (fun i => i.category == "Dress/Jumpsuit")).length)
          default)],
       ⟨s.fidx + 1, s.pidx + 1⟩) := by
  simp only [smartBase, hd, Bool.false_eq_true, if_false, nextFloat]
  rw [if_pos (decide_eq_true hf)]
  simp [nextChoice, dinsert_nil]

theorem smartBase_eq_sep_nodress (g : RandGen) (items : List Item) (s : RandState)
    (hd : (items.filter (fun i => i.category == "Dress/Jumpsuit")).isEmpty = true) :
    smartBase g items s = smartSeparates g items s := by
  simp [smartBase, hd]

theorem smartBase_eq_sep_tails (g : RandGen) (items : List Item) (s : RandState)
    (hd : (items.filter (fun i => i.category == "Dress/Jumpsuit")).isEmpty = false)
    (hf : ¬ g.floats s.fidx > mkRat 1 2) :
    smartBase g items s = smartSeparates g items ⟨s.fidx + 1, s.pidx⟩ := by
  simp only [smartBase, hd, Bool.false_eq_true, if_false, nextFloat]
  rw [if_neg (by simpa using hf)]

theorem addShoes_eq_none (g : RandGen) (items : List Item)
    (p : List (String × Item) × RandState)
    (hs : (items.filter (fun i => i.category == "Shoes")).isEmpty = true) :
    addShoes g items p = p := by
  simp [addShoes, hs]

theorem addShoes_eq_some (g : RandGen) (items : List Item)
    (p : List (String × Item) × RandState)
    (hs : (items.filter (fun i => i.category == "Shoes")).isEmpty = false) :
    addShoes g items p =
      (dinsert p.1 "Shoes" ((items.filter (fun i => i.category == "Shoes")).getD
        (g.picks p.2.pidx % (items.filter (fun i => i.category == "Shoes")).length) default),
       ⟨p.2.fidx, p.2.pidx + 1⟩) := by
  simp [addShoes, hs, nextChoice]

theorem addOuterwear_eq_none (g : RandGen) (items : List Item)
    (p : List (String × Item) × RandState)
    (ho : (items.filter (fun i => i.category == "Outerwear")).isEmpty = true) :
    addOuterwear g items p = p := by
  simp [addOuterwear, ho]

theorem addOuterwear_eq_miss (g : RandGen) (items : List Item)
    (p : List (String × Item) × RandState)
    (ho : (items.filter (fun i => i.category == "Outerwear")).isEmpty = false)
    (hf : ¬ g.floats p.2.fidx > mkRat 3 5) :
    addOuterwear g items p = (p.1, ⟨p.2.fidx + 1, p.2.pidx⟩) := by
  simp only [addOuterwear, ho, Bool.false_eq_true, if_false, nextFloat]
  rw [if_neg hf]

theorem addOuterwear_eq_hit (g : RandGen) (items : List Item)
    (p : List (String × Item) × RandState)
    (ho : (items.filter (fun i => i.category == "Outerwear")).isEmpty = false)
    (hf : g.floats p.2.fidx > mkRat 3 5) :
    addOuterwear g items p =
      (dinsert p.1 "Outerwear" ((items.filter (fun i => i.category == "Outerwear")).getD
        (g.picks p.2.pidx % (items.filter (fun i => i.category == "Outerwear")).length) default),
       ⟨p.2.fidx + 1, p.2.pidx + 1⟩) := by
  simp only [addOuterwear, ho, Bool.false_eq_true, if_false, nextFloat]
  rw [if_pos hf]
  simp [nextChoice]

theorem addAccessory_eq_none (g : RandGen) (items : List Item)
    (p : List (String × Item) × RandState)
    (ha : (items.filter (fun i => i.category == "Accessory")).isEmpty = true) :
    addAccessory g items p = p := by
  simp [addAccessory, ha]

theorem addAccessory_eq_miss (g : RandGen) (items : List Item)
    (p : List (String × Item) × RandState)
    (ha : (items.filter (fun i => i.category == "Accessory")).isEmpty = false)
    (hf : ¬ g.floats p.2.fidx > mkRat 1 2) :
    addAccessory g items p = (p.1, ⟨p.2.fidx + 1, p.2.pidx⟩) := by
  simp only [addAccessory, ha, Bool.false_eq_true, if_false, nextFloat]
  rw [if_neg hf]

theorem addAccessory_eq_hit (g : RandGen) (items : List Item)
    (p : List (String × Item) × RandState)
    (ha : (items.filter (fun i => i.category == "Accessory")).isEmpty = false)
    (hf : g.floats p.2.fidx > mkRat 1 2) :
    addAccessory g items p =
      (dinsert p.1 "Accessory" ((items.filter (fun i => i.category == "Accessory")).getD
        (g.picks p.2.pidx % (items.filter (fun i => i.category == "Accessory")).length) default),
       ⟨p.2.fidx + 1, p.2.pidx + 1⟩) := by
  simp only [addAccessory, ha, Bool.false_eq_true, if_false, nextFloat]
  rw [if_pos hf]
  simp [nextChoice]

theorem smartSeparates_keys (g : RandGen) (items : List Item) (s : RandState) :
    ∀ q ∈ (smartSeparates g items s).1, q.1 = "Top" ∨ q.1 = "Bottom" := by
  cases ht : (items.filter (fun i => i.category == "Top")).isEmpty <;>
    cases hb : (items.filter (fun i => i.category == "Bottom")).isEmpty
  · rw [smartSeparates_eq_both g items s ht hb]
    intro q hq
    simp only [List.mem_cons, List.mem_singleton, List.not_mem_nil, or_false] at hq
    rcases hq with rfl | rfl <;> simp
  · rw [smartSeparates_eq_top_only g items s ht hb]
    intro q hq
    simp only [List.mem_singleton] at hq
    subst hq; simp
  · rw [smartSeparates_eq_bottom_only g items s ht hb]
    intro q hq
    simp only [List.mem_singleton] at hq
    subst hq; simp
  · rw [smartSeparates_eq_none_none g items s ht hb]
    intro q hq
    simp at hq

theorem smartBase_keys (g : RandGen) (items : List Item) (s : RandState) :
    ∀ q ∈ (smartBase g items s).1, q.1 = "Dress/Jumpsuit" ∨ q.1 = "Top" ∨ q.1 = "Bottom" := by
  cases hd : (items.filter (fun i => i.category == "Dress/Jumpsuit")).isEmpty
  · by_cases hf : g.floats s.fidx > mkRat 1 2
    · rw [smartBase_eq_dress g items s hd hf]
      intro q hq
      simp only [List.mem_singleton] at hq
      subst hq; simp
    · rw [smartBase_eq_sep_tails g items s hd hf]
      intro q hq
      exact Or.inr (smartSeparates_keys g items _ q hq)
  · rw [smartBase_eq_sep_nodress g items s hd]
    intro q hq
    exact Or.inr (smartSeparates_keys g items s q hq)

theorem lookup_none_of_keys {α : Type} (m : List (String × α)) (k : String)
    (h : ∀ q ∈ m, q.1 ≠ k) : m.lookup k = none := by
  rw [List.lookup_eq_none_iff]
  intro p hp
  simpa using fun hh : k = p.1 => h p hp hh.symm

theorem count_keys_zero_of_keys {α : Type} (m : List (String × α)) (k : String)
    (h : ∀ q ∈ m, q.1 ≠ k) : (m.map Prod.fst).count k = 0 := by
  rw [List.count_eq_zero]
  intro hmem
  rw [List.mem_map] at hmem
  obtain ⟨p, hp, hpk⟩ := hmem
  exact h p hp hpk

theorem addShoes_lookup_ne (g : RandGen) (items : List Item)
    (p : List (String × Item) × RandState) (k : String) (h : k ≠ "Shoes") :
    (addShoes g items p).1.lookup k = p.1.lookup k := by
  cases hs : (items.filter (fun i => i.category == "Shoes")).isEmpty
  · rw [addShoes_eq_some g items p hs]
    exact lookup_dinsert_ne _ _ _ _ h
  · rw [addShoes_eq_none g items p hs]

theorem addShoes_count_ne (g : RandGen) (items : List Item)
    (p : List (String × Item) × RandState) (k : String) (h : k ≠ "Shoes") :
    ((addShoes g items p).1.map Prod.fst).count k = (p.1.map Prod.fst).count k := by
  cases hs : (items.filter (fun i => i.category == "Shoes")).isEmpty
  · rw [addShoes_eq_some g items p hs]
    exact count_keys_dinsert_ne _ _ _ _ h
  · rw [addShoes_eq_none g items p hs]

theorem addOuterwear_lookup_ne (g : RandGen) (items : List Item)
    (p : List (String × Item) × RandState) (k : String) (h : k ≠ "Outerwear") :
    (addOuterwear g items p).1.lookup k = p.1.lookup k := by
  cases ho : (items.filter (fun i => i.category == "Outerwear")).isEmpty
  · by_cases hf : g.floats p.2.fidx > mkRat 3 5
    · rw [addOuterwear_eq_hit g items p ho hf]
      exact lookup_dinsert_ne _ _ _ _ h
    · rw [addOuterwear_eq_miss g items p ho hf]
  · rw [addOuterwear_eq_none g items p ho]

theorem addOuterwear_count_ne (g : RandGen) (items : List Item)
    (p : List (String × Item) × RandState) (k : String) (h : k ≠ "Outerwear") :
    ((addOuterwear g items p).1.map Prod.fst).count k = (p.1.map Prod.fst).count k := by
  cases ho : (items.filter (fun i => i.category == "Outerwear")).isEmpty
  · by_cases hf : g.floats p.2.fidx > mkRat 3 5
    · rw [addOuterwear_eq_hit g items p ho hf]
      exact count_keys_dinsert_ne _ _ _ _ h
    · rw [addOuterwear_eq_miss g items p ho hf]
  · rw [addOuterwear_eq_none g items p ho]

theorem addAccessory_lookup_ne (g : RandGen) (items : List Item)
    (p : List (String × Item) × RandState) (k : String) (h : k ≠ "Accessory") :
    (addAccessory g items p).1.lookup k = p.1.lookup k := by
  cases ha : (items.filter (fun i => i.category == "Accessory")).isEmpty
  · by_cases hf : g.floats p.2.fidx > mkRat 1 2
    · rw [addAccessory_eq_hit g items p ha hf]
      exact lookup_dinsert_ne _ _ _ _ h
    · rw [addAccessory_eq_miss g items p ha hf]
  · rw [addAccessory_eq_none g items p ha]

theorem addAccessory_count_ne (g : RandGen) (items : List Item)
    (p : List (String × Item) × RandState) (k : String) (h : k ≠ "Accessory") :
    ((addAccessory g items p).1.map Prod.fst).count k = (p.1.map Prod.fst).count k := by
  cases ha : (items.filter (fun i => i.category == "Accessory")).isEmpty
  · by_cases hf : g.floats p.2.fidx > mkRat 1 2
    · rw [addAccessory_eq_hit g items p ha hf]
      exact count_keys_dinsert_ne _ _ _ _ h
    · rw [addAccessory_eq_miss g items p ha hf]
  · rw [addAccessory_eq_none g items p ha]

theorem tail_lookup_base (g : RandGen) (items : List Item)
    (p : List (String × Item) × RandState) (k : String)
    (h1 : k ≠ "Shoes") (h2 : k ≠ "Outerwear") (h3 : k ≠ "Accessory") :
    (addAccessory g items (addOuterwear g items (addShoes g items p))).1.lookup k =
      p.1.lookup k := by
  rw [addAccessory_lookup_ne _ _ _ _ h3, addOuterwear_lookup_ne _ _ _ _ h2,
    addShoes_lookup_ne _ _ _ _ h1]

theorem tail_count_base (g : RandGen) (items : List Item)
    (p : List (String × Item) × RandState) (k : String)
    (h1 : k ≠ "Shoes") (h2 : k ≠ "Outerwear") (h3 : k ≠ "Accessory") :
    ((addAccessory g items (addOuterwear g items (addShoes g items p))).1.map Prod.fst).count k =
      (p.1.map Prod.fst).count k := by
  rw [addAccessory_count_ne _ _ _ _ h3, addOuterwear_count_ne _ _ _ _ h2,
    addShoes_count_ne _ _ _ _ h1]

theorem smartSeparates_lookup (g : RandGen) (items : List Item) (s : RandState) :
    ((items.filter (fun i => i.category == "Top")) ≠ [] →
      (smartSeparates g items s).1.lookup "Top" =
        some ((items.filter (fun i => i.category == "Top")).getD
          (g.picks s.pidx % (items.filter (fun i => i.category == "Top")).length) default)) ∧
    ((items.filter (fun i => i.category == "Top")) = [] →
      (smartSeparates g items s).1.lookup "Top" = none) ∧
    ((items.filter (fun i => i.category == "Bottom")) ≠ [] →
      (smartSeparates g items s).1.lookup "Bottom" =
        some ((items.filter (fun i => i.category == "Bottom")).getD
          (g.picks (s.pidx + if (items.filter (fun i => i.category == "Top")).isEmpty then 0 else 1) %
            (items.filter (fun i => i.category == "Bottom")).length) default)) ∧
    ((items.filter (fun i => i.category == "Bottom")) = [] →
      (smartSeparates g items s).1.lookup "Bottom" = none) ∧
    (smartSeparates g items s).1.lookup "Dress/Jumpsuit" = none := by
  have hdj : (smartSeparates g items s).1.lookup "Dress/Jumpsuit" = none := by
    apply lookup_none_of_keys
    intro q hq
    rcases smartSeparates_keys g items s q hq with h | h <;> simp [h]
  cases ht : (items.filter (fun i => i.category == "Top")).isEmpty <;>
    cases hb : (items.filter (fun i => i.category == "Bottom")).isEmpty
  · rw [List.isEmpty_eq_false] at ht hb
    refine ⟨fun _ => ?_, fun hc => absurd hc ht, fun _ => ?_, fun hc => absurd hc hb, hdj⟩
    · rw [smartSeparates_eq_both g items s (by simpa using ht) (by simpa using hb)]
      simp [List.lookup_cons]
    · rw [smartSeparates_eq_both g items s (by simpa using ht) (by simpa using hb)]
      simp [List.lookup_cons]
  · rw [List.isEmpty_eq_false] at ht
    rw [List.isEmpty_iff] at hb
    refine ⟨fun _ => ?_, fun hc => absurd hc ht, fun hc => absurd hb hc, fun _ => ?_, hdj⟩
    · rw [smartSeparates_eq_top_only g items s (by simpa using ht) (by simp [hb])]
      simp [List.lookup_cons]
    · rw [smartSeparates_eq_top_only g items s (by simpa using ht) (by simp [hb])]
      simp [List.lookup_cons]
  · rw [List.isEmpty_iff] at ht
    rw [List.isEmpty_eq_false] at hb
    refine ⟨fun hc => absurd ht hc, fun _ => ?_, fun _ => ?_, fun hc => absurd hc hb, hdj⟩
    · rw [smartSeparates_eq_bottom_only g items s (by simp [ht]) (by simpa using hb)]
      simp [List.lookup_cons]
    · rw [smartSeparates_eq_bottom_only g items s (by simp [ht]) (by simpa using hb)]
      simp [List.lookup_cons]
  · rw [List.isEmpty_iff] at ht hb
    refine ⟨fun hc => absurd ht hc, fun _ => ?_, fun hc => absurd hb hc, fun _ => ?_, hdj⟩
    · rw [smartSeparates_eq_none_none g items s (by simp [ht]) (by simp [hb])]
      simp
    · rw [smartSeparates_eq_none_none g items s (by simp [ht]) (by simp [hb])]
      simp

/-- **C3**: In `generate_smart_outfit`, if any Dress/Jumpsuit items exist in
the (post-fallback) candidate pool and the coin-flip draw exceeds 0.5, the
result contains exactly one Dress/Jumpsuit item picked from the pool by the
random source and no Top and no Bottom key; otherwise (no dresses, or tails)
one Top is picked if any exist and, independently, one Bottom is picked if
any exist, either key being absent when its category is empty in the pool.
Quantified over every random stream. -/
theorem smart_dress_vs_separates (g : RandGen) (w : Catalog) (occasion season : Option String)
    (s : RandState) (items dresses tops bottoms : List Item) (r : List (String × Item))
    (hi : items = smartPool w occasion season)
    (hd : dresses = items.filter (fun i => i.category == "Dress/Jumpsuit"))
    (ht : tops = items.filter (fun i => i.category == "Top"))
    (hb : bottoms = items.filter (fun i => i.category == "Bottom"))
    (hr : r = generate_smart_outfit g w occasion season s) :
    (dresses ≠ [] → g.floats s.fidx > mkRat 1 2 →
      r.lookup "Dress/Jumpsuit" =
        some (dresses.getD (g.picks s.pidx % dresses.length) default) ∧
      (r.map Prod.fst).count "Dress/Jumpsuit" = 1 ∧
      r.lookup "Top" = none ∧ r.lookup "Bottom" = none) ∧
    ((dresses = [] ∨ ¬ g.floats s.fidx > mkRat 1 2) →
      r.lookup "Dress/Jumpsuit" = none ∧
      (tops ≠ [] → r.lookup "Top" = some (tops.getD (g.picks s.pidx % tops.length) default)) ∧
      (tops = [] → r.lookup "Top" = none) ∧
      (bottoms ≠ [] → r.lookup "Bottom" = some (bottoms.getD
        (g.picks (s.pidx + if tops.isEmpty then 0 else 1) % bottoms.length) default)) ∧
      (bottoms = [] → r.lookup "Bottom" = none)) := by
  have hgen : generate_smart_outfit g w occasion season s =
      (addAccessory g items (addOuterwear g items
        (addShoes g items (smartBase g items s)))).1 := by
    rw [hi]; rfl
  subst hd ht hb hr
  rw [hgen]
  constructor
  · intro hdne hf
    have hd' : (items.filter (fun i => i.category == "Dress/Jumpsuit")).isEmpty = false := by
      rw [List.isEmpty_eq_false]; exact hdne
    refine ⟨?_, ?_, ?_, ?_⟩
    · rw [tail_lookup_base g items _ _ (by decide) (by decide) (by decide),
        smartBase_eq_dress g items s hd' hf]
      simp [List.lookup_cons]
    · rw [tail_count_base g items _ _ (by decide) (by decide) (by decide),
        smartBase_eq_dress g items s hd' hf]
      simp
    · rw [tail_lookup_base g items _ _ (by decide) (by decide) (by decide),
        smartBase_eq_dress g items s hd' hf]
      simp [List.lookup_cons]
    · rw [tail_lookup_base g items _ _ (by decide) (by decide) (by decide),
        smartBase_eq_dress g items s hd' hf]
      simp [List.lookup_cons]
  · intro hsep
    have key : ∃ s1 : RandState, smartBase g items s = smartSeparates g items s1 ∧
        s1.pidx = s.pidx := by
      rcases hsep with hd0 | hf
      · exact ⟨s, smartBase_eq_sep_nodress g items s (by simp [List.isEmpty_iff, hd0]), rfl⟩
      · cases hde : (items.filter (fun i => i.category == "Dress/Jumpsuit")).isEmpty
        · exact ⟨⟨s.fidx + 1, s.pidx⟩, smartBase_eq_sep_tails g items s hde hf, rfl⟩
        · exact ⟨s, smartBase_eq_sep_nodress g items s hde, rfl⟩
    obtain ⟨s1, hB, hps⟩ := key
    obtain ⟨l1, l2, l3, l4, l5⟩ := smartSeparates_lookup g items s1
    rw [hps] at l1 l3
    refine ⟨?_, fun htne => ?_, fun hte => ?_, fun hbne => ?_, fun hbe => ?_⟩ <;>
      rw [tail_lookup_base g items _ _ (by decide) (by decide) (by decide), hB]
    · exact l5
    · exact l1 htne
    · exact l2 hte
    · exact l3 hbne
    · exact l4 hbe

theorem smart_tail_spec (g : RandGen) (w : Catalog)
    (occasion season : Option String) (s : RandState)
    (items shoes outerwear accessories : List Item)
    (p : List (String × Item) × RandState) (r : List (String × Item))
    (hi : items = smartPool w occasion season)
    (hs : shoes = items.filter (fun i => i.category == "Shoes"))
    (ho : outerwear = items.filter (fun i => i.category == "Outerwear"))
    (ha : accessories = items.filter (fun i => i.category == "Accessory"))
    (hp : p = smartBase g items s)
    (hr : r = generate_smart_outfit g w occasion season s) :
    (shoes = [] → r.lookup "Shoes" = none) ∧
    (shoes ≠ [] → r.lookup "Shoes" =
      some (shoes.getD (g.picks p.2.pidx % shoes.length) default)) ∧
    (outerwear = [] → r.lookup "Outerwear" = none) ∧
    (outerwear ≠ [] → g.floats (addShoes g items p).2.fidx > mkRat 3 5 →
      r.lookup "Outerwear" = some (outerwear.getD
        (g.picks (addShoes g items p).2.pidx % outerwear.length) default)) ∧
    (outerwear ≠ [] → ¬ g.floats (addShoes g items p).2.fidx > mkRat 3 5 →
      r.lookup "Outerwear" = none) ∧
    (accessories = [] → r.lookup "Accessory" = none) ∧
    (accessories ≠ [] →
      g.floats (addOuterwear g items (addShoes g items p)).2.fidx > mkRat 1 2 →
      r.lookup "Accessory" = some (accessories.getD
        (g.picks (addOuterwear g items (addShoes g items p)).2.pidx % accessories.length)
        default)) ∧
    (accessories ≠ [] →
      ¬ g.floats (addOuterwear g items (addShoes g items p)).2.fidx > mkRat 1 2 →
      r.lookup "Accessory" = none) := by
  have hgen : generate_smart_outfit g w occasion season s =
      (addAccessory g items (addOuterwear g items
        (addShoes g items (smartBase g items s)))).1 := by
    rw [hi]; rfl
  subst hs ho ha hr
  rw [hgen, ← hp]
  have hbase : ∀ k : String, k ≠ "Dress/Jumpsuit" → k ≠ "Top" → k ≠ "Bottom" →
      p.1.lookup k = none := by
    intro k h1 h2 h3
    rw [hp]
    apply lookup_none_of_keys
    intro q hq
    rcases smartBase_keys g items s q hq with h | h | h <;> rw [h] <;>
      [exact fun hh => h1 hh.symm; exact fun hh => h2 hh.symm; exact fun hh => h3 hh.symm]
  refine ⟨?_, ?_, ?_, ?_, ?_, ?_, ?_, ?_⟩
  · intro hse
    have hs' : (items.filter (fun i => i.category == "Shoes")).isEmpty = true := by
      simp [List.isEmpty_iff, hse]
    rw [addAccessory_lookup_ne _ _ _ _ (by decide),
      addOuterwear_lookup_ne _ _ _ _ (by decide), addShoes_eq_none g items p hs']
    exact hbase "Shoes" (by decide) (by decide) (by decide)
  · intro hsne
    have hs' : (items.filter (fun i => i.category == "Shoes")).isEmpty = false := by
      rw [List.isEmpty_eq_false]; exact hsne
    rw [addAccessory_lookup_ne _ _ _ _ (by decide),
      addOuterwear_lookup_ne _ _ _ _ (by decide), addShoes_eq_some g items p hs']
    exact lookup_dinsert_self _ _ _
  · intro hoe
    have ho' : (items.filter (fun i => i.category == "Outerwear")).isEmpty = true := by
      simp [List.isEmpty_iff, hoe]
    rw [addAccessory_lookup_ne _ _ _ _ (by decide), addOuterwear_eq_none g items _ ho',
      addShoes_lookup_ne _ _ _ _ (by decide)]
    exact hbase "Outerwear" (by decide) (by decide) (by decide)
  · intro hone hf
    have ho' : (items.filter (fun i => i.category == "Outerwear")).isEmpty = false := by
      rw [List.isEmpty_eq_false]; exact hone
    rw [addAccessory_lookup_ne _ _ _ _ (by decide), addOuterwear_eq_hit g items _ ho' hf]
    exact lookup_dinsert_self _ _ _
  · intro hone hf
    have ho' : (items.filter (fun i => i.category == "Outerwear")).isEmpty = false := by
      rw [List.isEmpty_eq_false]; exact hone
    rw [addAccessory_lookup_ne _ _ _ _ (by decide), addOuterwear_eq_miss g items _ ho' hf]
    rw [addShoes_lookup_ne _ _ _ _ (by decide)]
    exact hbase "Outerwear" (by decide) (by decide) (by decide)
  · intro hae
    have ha' : (items.filter (fun i => i.category == "Accessory")).isEmpty = true := by
      simp [List.isEmpty_iff, hae]
    rw [addAccessory_eq_none g items _ ha', addOuterwear_lookup_ne _ _ _ _ (by decide),
      addShoes_lookup_ne _ _ _ _ (by decide)]
    exact hbase "Accessory" (by decide) (by decide) (by decide)
  · intro hane hf
    have ha' : (items.filter (fun i => i.category == "Accessory")).isEmpty = false := by
      rw [List.isEmpty_eq_false]; exact hane
    rw [addAccessory_eq_hit g items _ ha' hf]
    exact lookup_dinsert_self _ _ _
  · intro hane hf
    have ha' : (items.filter (fun i => i.category == "Accessory")).isEmpty = false := by
      rw [List.isEmpty_eq_false]; exact hane
    rw [addAccessory_eq_miss g items _ ha' hf, addOuterwear_lookup_ne _ _ _ _ (by decide),
      addShoes_lookup_ne _ _ _ _ (by decide)]
    exact hbase "Accessory" (by decide) (by decide) (by decide)

/-- **C4**: In `generate_smart_outfit`, after top/bottom/dress selection
(the state pair `p = smartBase ...`): a Shoes item is always included
whenever any Shoes exist in the pool (picked by the random source);
an Outerwear item is included exactly when Outerwear items exist and the
draw consumed at that point exceeds 0.6; an Accessory item is included
exactly when Accessory items exist and its draw exceeds 0.5.  Quantified
over every random stream. -/
theorem smart_shoes_outerwear_accessory (g : RandGen) (w : Catalog)
    (occasion season : Option String) (s : RandState)
    (items shoes outerwear accessories : List Item)
    (p : List (String × Item) × RandState) (r : List (String × Item))
    (hi : items = smartPool w occasion season)
    (hs : shoes = items.filter (fun i => i.category == "Shoes"))
    (ho : outerwear = items.filter (fun i => i.category == "Outerwear"))
    (ha : accessories = items.filter (fun i => i.category == "Accessory"))
    (hp : p = smartBase g items s)
    (hr : r = generate_smart_outfit g w occasion season s) :
    (shoes = [] → r.lookup "Shoes" = none) ∧
    (shoes ≠ [] → r.lookup "Shoes" =
      some (shoes.getD (g.picks p.2.pidx % shoes.length) default)) ∧
    (outerwear = [] → r.lookup "Outerwear" = none) ∧
    (outerwear ≠ [] → g.floats (addShoes g items p).2.fidx > mkRat 3 5 →
      r.lookup "Outerwear" = some (outerwear.getD
        (g.picks (addShoes g items p).2.pidx % outerwear.length) default)) ∧
    (outerwear ≠ [] → ¬ g.floats (addShoes g items p).2.fidx > mkRat 3 5 →
      r.lookup "Outerwear" = none) ∧
    (accessories = [] → r.lookup "Accessory" = none) ∧
    (accessories ≠ [] →
      g.floats (addOuterwear g items (addShoes g items p)).2.fidx > mkRat 1 2 →
      r.lookup "Accessory" = some (accessories.getD
        (g.picks (addOuterwear g items (addShoes g items p)).2.pidx % accessories.length)
        default)) ∧
    (accessories ≠ [] →
      ¬ g.floats (addOuterwear g items (addShoes g items p)).2.fidx > mkRat 1 2 →
      r.lookup "Accessory" = none) :=
  smart_tail_spec g w occasion season s items shoes outerwear accessories p r
    hi hs ho ha hp hr

theorem choice_mem (xs : List Item) (h : xs ≠ []) (k : Nat) :
    xs.getD (k % xs.length) default ∈ xs := by
  have hl : 0 < xs.length := List.length_pos.mpr h
  have hk : k % xs.length < xs.length := Nat.mod_lt _ hl
  rw [List.getD_eq_getElem?_getD, List.getElem?_eq_getElem hk]
  exact List.getElem_mem hk

theorem keys_map_replace_eq {α : Type} (m : List (String × α)) (k : String) (v : α) :
    (m.map (fun p => if p.1 == k then (k, v) else p)).map Prod.fst = m.map Prod.fst := by
  induction m with
  | nil => rfl
  | cons p t ih =>
    obtain ⟨a, x⟩ := p
    by_cases hp : a = k
    · simp only [beq_iff_eq] at ih ⊢
      simp [List.map_cons, if_pos hp, ih, hp]
    · simp only [beq_iff_eq] at ih ⊢
      simp [List.map_cons, if_neg hp, ih]

theorem keys_dinsert_nodup {α : Type} (m : List (String × α)) (k : String) (v : α)
    (h : (m.map Prod.fst).Nodup) : ((dinsert m k v).map Prod.fst).Nodup := by
  unfold dinsert
  split
  · rw [keys_map_replace_eq]
    exact h
  · rename_i hany
    rw [List.map_append]
    simp only [List.map_cons, List.map_nil]
    rw [List.nodup_append]
    refine ⟨h, List.nodup_singleton k, ?_⟩
    intro a ha hb
    simp only [List.mem_singleton] at hb
    subst hb
    rw [List.mem_map] at ha
    obtain ⟨p, hp, hpk⟩ := ha
    have h2 := List.any_eq_false.mp
      (by simp only [Bool.not_eq_true] at hany; exact hany) p hp
    simp [hpk] at h2

theorem lookup_isSome_dinsert {α : Type} (m : List (String × α)) (k k' : String) (v : α) :
    ((dinsert m k v).lookup k').isSome = ((m.lookup k').isSome || (k' == k)) := by
  by_cases h : k' = k
  · subst h
    rw [lookup_dinsert_self]
    simp
  · rw [lookup_dinsert_ne _ _ _ _ h]
    simp [h]

theorem gro_loop_mem (g : RandGen) (items : List Item) :
    ∀ (cats : List String) (acc : List (String × Item)) (s : RandState),
      ∀ p ∈ gro_loop g items cats acc s,
        p ∈ acc ∨ (p.1 ∈ cats ∧ p.2 ∈ items ∧ p.2.category = p.1) := by
  intro cats
  induction cats with
  | nil => intro acc s p hp; exact Or.inl hp
  | cons c cs ih =>
    intro acc s p hp
    rw [show gro_loop g items (c :: cs) acc s =
        (let category_items := items.filter (fun i => i.category == c)
         if category_items.isEmpty then gro_loop g items cs acc s
         else
           let (x, s') := nextChoice g s category_items
           gro_loop g items cs (dinsert acc c x) s') from rfl] at hp
    by_cases he : (items.filter (fun i => i.category == c)).isEmpty
    · rw [if_pos he] at hp
      rcases ih acc s p hp with h | ⟨h1, h2, h3⟩
      · exact Or.inl h
      · exact Or.inr ⟨List.mem_cons_of_mem c h1, h2, h3⟩
    · rw [if_neg he] at hp
      simp only [nextChoice] at hp
      rcases ih _ _ p hp with h | ⟨h1, h2, h3⟩
      · rcases mem_dinsert p acc c _ h with h' | h'
        · subst h'
          have hx := choice_mem (items.filter (fun i => i.category == c))
            (by simpa [List.isEmpty_iff] using he) (g.picks s.pidx)
          rw [List.mem_filter] at hx
          exact Or.inr ⟨List.mem_cons_self c cs, hx.1, by simpa using hx.2⟩
        · exact Or.inl h'
      · exact Or.inr ⟨List.mem_cons_of_mem c h1, h2, h3⟩

theorem gro_loop_lookup_isSome (g : RandGen) (items : List Item) :
    ∀ (cats : List String) (acc : List (String × Item)) (s : RandState) (c : String),
      ((gro_loop g items cats acc s).lookup c).isSome =
        ((acc.lookup c).isSome ||
          cats.any (fun c' => c == c' && !(items.filter (fun i => i.category == c')).isEmpty)) := by
  intro cats
  induction cats with
  | nil => intro acc s c; simp [gro_loop]
  | cons c0 cs ih =>
    intro acc s c
    rw [show gro_loop g items (c0 :: cs) acc s =
        (let category_items := items.filter (fun i => i.category == c0)
         if category_items.isEmpty then gro_loop g items cs acc s
         else
           let (x, s') := nextChoice g s category_items
           gro_loop g items cs (dinsert acc c0 x) s') from rfl]
    by_cases he : (items.filter (fun i => i.category == c0)).isEmpty
    · rw [if_pos he, ih]
      simp [List.any_cons, he]
    · rw [if_neg he]
      simp only [nextChoice]
      rw [ih]
      rw [lookup_isSome_dinsert]
      simp only [List.any_cons, eq_iff_iff, (show (items.filter
        (fun i => i.category == c0)).isEmpty = false by simpa using he)]
      cases hc : (c == c0) <;> simp [hc]

theorem gro_loop_keys_nodup (g : RandGen) (items : List Item) :
    ∀ (cats : List String) (acc : List (String × Item)) (s : RandState),
      (acc.map Prod.fst).Nodup → ((gro_loop g items cats acc s).map Prod.fst).Nodup := by
  intro cats
  induction cats with
  | nil => intro acc s h; exact h
  | cons c cs ih =>
    intro acc s h
    rw [show gro_loop g items (c :: cs) acc s =
        (let category_items := items.filter (fun i => i.category == c)
         if category_items.isEmpty then gro_loop g items cs acc s
         else
           let (x, s') := nextChoice g s category_items
           gro_loop g items cs (dinsert acc c x) s') from rfl]
    by_cases he : (items.filter (fun i => i.category == c)).isEmpty
    · rw [if_pos he]
      exact ih acc s h
    · rw [if_neg he]
      simp only [nextChoice]
      exact ih _ _ (keys_dinsert_nodup acc c _ h)

/-- **C2**: `generate_random_outfit` returns a mapping whose keys are a
subset of the requested categories with exactly one item per key, each
chosen from the wardrobe items of that category by the random source; a
requested category with no items is simply absent (not an error), and no
unrequested category ever appears.  For the catalog with exactly one Top
(id a), one Bottom (id b) and one Shoes (id c), requesting
Top/Bottom/Shoes returns exactly those three, for every random stream. -/
theorem generate_random_outfit_spec (g : RandGen) (w : Catalog) (cats : List String)
    (s : RandState) :
    (∀ p ∈ generate_random_outfit g w cats s,
      p.1 ∈ cats ∧ p.2 ∈ w.items ∧ p.2.category = p.1) ∧
    (∀ c ∈ cats, w.items.filter (fun i => i.category == c) ≠ [] →
      ((generate_random_outfit g w cats s).map Prod.fst).count c = 1) ∧
    (∀ c, w.items.filter (fun i => i.category == c) = [] →
      (generate_random_outfit g w cats s).lookup c = none) ∧
    (∀ c, c ∉ cats → (generate_random_outfit g w cats s).lookup c = none) ∧
    generate_random_outfit g catalogABC ["Top", "Bottom", "Shoes"] s =
      [("Top", itemA), ("Bottom", itemB), ("Shoes", itemC)] := by
  refine ⟨?_, ?_, ?_, ?_, ?_⟩
  · intro p hp
    rcases gro_loop_mem g w.items cats [] s p hp with h | h
    · simp at h
    · exact h
  · intro c hc hne
    have hsome : ((generate_random_outfit g w cats s).lookup c).isSome = true := by
      rw [show generate_random_outfit g w cats s = gro_loop g w.items cats [] s from rfl,
        gro_loop_lookup_isSome]
      simp only [List.lookup_nil, Option.isSome_none, Bool.false_or]
      rw [List.any_eq_true]
      refine ⟨c, hc, ?_⟩
      simp [List.isEmpty_iff, hne]
    have hnodup := gro_loop_keys_nodup g w.items cats [] s (by simp)
    have hmem : c ∈ (generate_random_outfit g w cats s).map Prod.fst := by
      rw [Option.isSome_iff_exists] at hsome
      obtain ⟨x, hx⟩ := hsome
      rw [List.lookup_eq_some_iff] at hx
      obtain ⟨l1, l2, heq, -⟩ := hx
      rw [heq]
      simp
    exact List.count_eq_one_of_mem hnodup hmem
  · intro c hemp
    have hiso := gro_loop_lookup_isSome g w.items cats [] s c
    have hfalse : (cats.any fun c' =>
        c == c' && !(w.items.filter (fun i => i.category == c')).isEmpty) = false := by
      rw [List.any_eq_false]
      intro c' hc'
      by_cases h : c = c'
      · subst h
        simp [List.isEmpty_iff, hemp]
      · simp [h]
    rw [show generate_random_outfit g w cats s = gro_loop g w.items cats [] s from rfl]
    cases hl : (gro_loop g w.items cats [] s).lookup c with
    | none => rfl
    | some x =>
      rw [hl, hfalse] at hiso
      simp at hiso
  · intro c hnc
    have hiso := gro_loop_lookup_isSome g w.items cats [] s c
    have hfalse : (cats.any fun c' =>
        c == c' && !(w.items.filter (fun i => i.category == c')).isEmpty) = false := by
      rw [List.any_eq_false]
      intro c' hc'
      by_cases h : c = c'
      · exact absurd (h ▸ hc') hnc
      · simp [h]
    rw [show generate_random_outfit g w cats s = gro_loop g w.items cats [] s from rfl]
    cases hl : (gro_loop g w.items cats [] s).lookup c with
    | none => rfl
    | some x =>
      rw [hl, hfalse] at hiso
      simp at hiso
  · simp [generate_random_outfit, gro_loop, nextChoice, dinsert, catalogABC,
      itemA, itemB, itemC, mkItem, Nat.mod_one]

/-- **C1**: For every catalog value (any items list and outfits list),
`save_wardrobe` followed by `load_wardrobe` reproduces an identical catalog
document: the same items and the same outfits, field-for-field.  The
reloaded JSON document equals the encoded catalog exactly. -/
theorem save_load_roundtrip (w : Catalog) (fs : FileSystem) :
    load_wardrobe (save_wardrobe w fs) = some (encodeCatalog w) := by
  unfold load_wardrobe save_wardrobe
  simp only []
  exact jsonLoads_jsonDump (encodeCatalog w)

/-- **C5**: In `generate_smart_outfit`, an occasion argument restricts the
candidate pool to items whose occasion set contains it; a season argument
restricts to items whose season set contains it or contains "All Season";
both given compose with logical AND. -/
theorem smart_filters_compose (w : Catalog) (o se : String)
    (ho : o ∈ OCCASIONS) (hs : se ∈ SEASONS) :
    smartFiltered w (some o) (some se) =
      w.items.filter (fun i => i.occasions.contains o &&
        (i.seasons.contains se || i.seasons.contains "All Season")) ∧
    smartFiltered w (some o) none = w.items.filter (fun i => i.occasions.contains o) ∧
    smartFiltered w none (some se) =
      w.items.filter (fun i => i.seasons.contains se || i.seasons.contains "All Season") ∧
    smartFiltered w none none = w.items ∧
    (∀ i, i ∈ smartFiltered w (some o) (some se) ↔
      i ∈ w.items ∧ o ∈ i.occasions ∧ (se ∈ i.seasons ∨ "All Season" ∈ i.seasons)) := by
  have hone : o ≠ "" := (by decide : ∀ x ∈ OCCASIONS, x ≠ "") o ho
  have hsne : se ≠ "" := (by decide : ∀ x ∈ SEASONS, x ≠ "") se hs
  have hto : truthy (some o) = true := by simp [truthy, hone]
  have hts : truthy (some se) = true := by simp [truthy, hsne]
  have htn : truthy none = false := rfl
  have h1 : smartFiltered w (some o) (some se) =
      w.items.filter (fun i => i.occasions.contains o &&
        (i.seasons.contains se || i.seasons.contains "All Season")) := by
    simp only [smartFiltered, hto, hts, if_true, Option.getD_some]
    rw [List.filter_filter]
    congr 1
    funext i
    rw [Bool.and_comm]
  refine ⟨h1, ?_, ?_, ?_, ?_⟩
  · simp only [smartFiltered, hto, htn, if_true, Bool.false_eq_true, if_false,
      Option.getD_some]
  · simp only [smartFiltered, hts, htn, if_true, Bool.false_eq_true, if_false,
      Option.getD_some]
  · simp only [smartFiltered, htn, Bool.false_eq_true, if_false]
  · intro i
    rw [h1, List.mem_filter]
    simp

/-- **C6 (amended)**: if the occasion/season filters leave fewer than 3
items, they are discarded and the full item list is used as the pool;
consequently, whenever the fallback fires and the full catalog contains a
Shoes item (as both spanning conditions of the claim require), the result
is non-empty. -/
theorem smart_fallback (g : RandGen) (w : Catalog) (occasion season : Option String)
    (s : RandState) :
    ((smartFiltered w occasion season).length < 3 →
      smartPool w occasion season = w.items) ∧
    (3 ≤ (smartFiltered w occasion season).length →
      smartPool w occasion season = smartFiltered w occasion season) ∧
    ((smartFiltered w occasion season).length < 3 →
      (∃ i ∈ w.items, i.category = "Shoes") →
      (generate_smart_outfit g w occasion season s).lookup "Shoes" ≠ none ∧
      generate_smart_outfit g w occasion season s ≠ []) := by
  refine ⟨fun h => by simp [smartPool, h], fun h => by simp [smartPool, Nat.not_lt.mpr h], ?_⟩
  intro hlt hshoes
  have hpool : smartPool w occasion season = w.items := by simp [smartPool, hlt]
  have hs' : (smartPool w occasion season).filter (fun i => i.category == "Shoes") ≠ [] := by
    rw [hpool]
    obtain ⟨i, hi, hc⟩ := hshoes
    intro hnil
    have : i ∈ w.items.filter (fun i => i.category == "Shoes") := by
      rw [List.mem_filter]
      exact ⟨hi, by simp [hc]⟩
    rw [hnil] at this
    simp at this
  have hlook := (smart_tail_spec g w occasion season s
    (smartPool w occasion season)
    ((smartPool w occasion season).filter (fun i => i.category == "Shoes"))
    ((smartPool w occasion season).filter (fun i => i.category == "Outerwear"))
    ((smartPool w occasion season).filter (fun i => i.category == "Accessory"))
    (smartBase g (smartPool w occasion season) s)
    (generate_smart_outfit g w occasion season s)
    rfl rfl rfl rfl rfl rfl).2.1 hs'
  refine ⟨by rw [hlook]; simp, ?_⟩
  intro hempty
  rw [hempty] at hlook
  simp at hlook

/-- Counterexample to **C6** as stated: with a catalog of 6 items spanning
Top+Bottom+Shoes (plus three Party accessories), the occasion filter
"Party" matches exactly 3 items, so no fallback fires, and a run whose
accessory draw is 0.3 produces an empty outfit even though the full
catalog spans Top+Bottom+Shoes. -/
theorem smart_fallback_counterexample :
    generate_smart_outfit gZero catalogC6 (some "Party") none rs0 = [] ∧
    3 ≤ catalogC6.items.length ∧
    (∃ i ∈ catalogC6.items, i.category = "Top") ∧
    (∃ i ∈ catalogC6.items, i.category = "Bottom") ∧
    (∃ i ∈ catalogC6.items, i.category = "Shoes") := by
  refine ⟨by decide, by decide, ?_, ?_, ?_⟩
  · exact ⟨itemA, by decide, rfl⟩
  · exact ⟨itemB, by decide, rfl⟩
  · exact ⟨itemC, by decide, rfl⟩

/-- Counterexample to **C7** as stated: on the response text
three-backticks+json+three-backticks+null+three-backticks, stripping
exactly one leading fence (with its json tag) and one trailing fence
leaves text that is not valid JSON, so the claimed contract demands `None`;
the code instead strips a second leading fence and successfully returns
the parsed JSON `null`. -/
theorem analyze_cleanup_counterexample :
    analyze_garment_image (ApiResult.response 200 "```json```null```") = some JVal.null ∧
    jsonLoads (specCleanupResponse "```json```null```") = none := by
  constructor
  · rfl
  · rfl

/-- **C7 (amended)**: the cleanup strips an optional leading three-backtick
fence with "json" tag, then additionally an optional bare leading fence,
then one optional trailing fence; except when the text begins with the
json-tagged fence immediately followed by a second fence, this agrees with
stripping exactly one leading and one trailing fence.  In all cases, a
response whose cleaned text is not valid JSON, a non-success HTTP status,
and a network error all yield `None` rather than an unhandled fault. -/
theorem analyze_cleanup_and_errors :
    (∀ content, ¬(startsW (pyStrip content) "```json" = true ∧
        startsW (dropS (pyStrip content) 7) "```" = true) →
      cleanupResponse content = specCleanupResponse content) ∧
    (∀ content, jsonLoads (cleanupResponse content) = none →
      analyze_garment_image (ApiResult.response 200 content) = none ∧
      analyze_tag_image (ApiResult.response 200 content) = none) ∧
    (∀ status content, status ≠ 200 →
      analyze_garment_image (ApiResult.response status content) = none ∧
      analyze_tag_image (ApiResult.response status content) = none) ∧
    analyze_garment_image ApiResult.netError = none ∧
    analyze_tag_image ApiResult.netError = none := by
  refine ⟨?_, ?_, ?_, rfl, rfl⟩
  · intro content h
    cases h1 : startsW (pyStrip content) "```json"
    · simp only [cleanupResponse, specCleanupResponse, h1, Bool.false_eq_true, if_false]
    · have h2 : startsW (dropS (pyStrip content) 7) "```" = false := by
        cases hc : startsW (dropS (pyStrip content) 7) "```"
        · rfl
        · exact absurd ⟨h1, hc⟩ h
      simp only [cleanupResponse, specCleanupResponse, h1, h2, if_true,
        Bool.false_eq_true, if_false]
  · intro content hparse
    simp [analyze_garment_image, analyze_tag_image, hparse]
  · intro status content hstatus
    simp [analyze_garment_image, analyze_tag_image, hstatus]

/-- **C8**: saving an outfit with an empty name is rejected (no state
change, no save, error reported); with a non-empty name exactly one new
outfit record with the freshly generated id `outfit_<timestamp>` and the
current timestamp, referencing the selected item ids by value, is appended
and the catalog is saved. -/
theorem save_outfit_handler_spec (w : Catalog) (fs : FileSystem) (name : String)
    (outfit : List (String × Item)) (now_ts now_iso : String) :
    (name = "" →
      (saveOutfitHandler w fs name outfit now_ts now_iso).1 = w ∧
      (saveOutfitHandler w fs name outfit now_ts now_iso).2.1 = fs ∧
      (saveOutfitHandler w fs name outfit now_ts now_iso).2.2 = false) ∧
    (name ≠ "" →
      (saveOutfitHandler w fs name outfit now_ts now_iso).1.items = w.items ∧
      (saveOutfitHandler w fs name outfit now_ts now_iso).1.outfits =
        w.outfits ++
          [{ id := "outfit_" ++ now_ts, name := name,
             items := outfit.map (fun p => p.2.id), created_date := now_iso }] ∧
      (saveOutfitHandler w fs name outfit now_ts now_iso).2.1 =
        save_wardrobe (saveOutfitHandler w fs name outfit now_ts now_iso).1 fs ∧
      (saveOutfitHandler w fs name outfit now_ts now_iso).2.2 = true) := by
  constructor
  · intro h
    subst h
    exact ⟨rfl, rfl, rfl⟩
  · intro h
    have hb : (name != "") = true := by simpa using h
    refine ⟨?_, ?_, ?_, ?_⟩ <;> simp [saveOutfitHandler, hb]

theorem delete_exactly_one (l : List Item) (a : Item)
    (hnd : (l.map Item.id).Nodup) (hmem : a ∈ l) :
    (l.filter (fun x => x.id != a.id)).length + 1 = l.length := by
  induction l with
  | nil => simp at hmem
  | cons x t ih =>
    simp only [List.map_cons, List.nodup_cons] at hnd
    obtain ⟨hx, hnd'⟩ := hnd
    by_cases hxa : x.id = a.id
    · have hall : ∀ y ∈ t, (y.id != a.id) = true := by
        intro y hy
        have hyx : y.id ≠ x.id := by
          intro hh
          exact hx (hh ▸ List.mem_map_of_mem Item.id hy)
        simp [bne_iff_ne]
        rw [← hxa]
        exact fun hh => hyx hh
      rw [List.filter_cons, if_neg (by simp [hxa])]
      rw [List.filter_eq_self.mpr hall]
      simp
    · have hmem' : a ∈ t := by
        rcases List.mem_cons.mp hmem with h | h
        · exact absurd (h ▸ rfl) (fun hh : x.id = a.id => hxa hh)
        · exact h
      rw [List.filter_cons, if_pos (by simp [bne_iff_ne]; exact hxa)]
      simp only [List.length_cons]
      rw [← ih hnd' hmem']

/-- Counterexample to **C9** as stated: deleting an item whose tag image is
stored on disk removes the item and its garment image but leaves the tag
image file behind — the deletion does not cascade to all of the item's
stored image files. -/
theorem delete_item_tag_image_counterexample :
    itemWithTag.tag_image_path = some "clothing_images/t_tag.jpg" ∧
    itemWithTag.image_path = "clothing_images/t.jpg" ∧
    fsWithTag.imageFiles = ["clothing_images/t.jpg", "clothing_images/t_tag.jpg"] ∧
    (deleteItemHandler catalogWithTag fsWithTag itemWithTag).1.items = [] ∧
    (deleteItemHandler catalogWithTag fsWithTag itemWithTag).2.imageFiles =
      ["clothing_images/t_tag.jpg"] := by
  refine ⟨rfl, rfl, rfl, by decide, by decide⟩

/-- **C9 (amended)**: deleting an item removes exactly that item from the
items list (all entries with its id; exactly one when ids are unique) and
removes its garment image file; the tag image file and every other file
are untouched, every saved outfit remains unchanged, and at display time
an outfit's item list no longer resolves the deleted id. -/
theorem delete_item_spec (w : Catalog) (fs : FileSystem) (item : Item) :
    (deleteItemHandler w fs item).1.items = w.items.filter (fun i => i.id != item.id) ∧
    ((w.items.map Item.id).Nodup → item ∈ w.items →
      (deleteItemHandler w fs item).1.items.length + 1 = w.items.length) ∧
    (deleteItemHandler w fs item).1.outfits = w.outfits ∧
    item.image_path ∉ (deleteItemHandler w fs item).2.imageFiles ∧
    (∀ path, path ≠ item.image_path →
      (path ∈ (deleteItemHandler w fs item).2.imageFiles ↔ path ∈ fs.imageFiles)) ∧
    (∀ o : Outfit, ∀ i ∈ displayOutfitItems (deleteItemHandler w fs item).1 o,
      i.id ≠ item.id ∧ i ∈ w.items ∧ i.id ∈ o.items) := by
  have himg : (deleteItemHandler w fs item).2.imageFiles =
      (if fs.imageFiles.contains item.image_path then
        fs.imageFiles.filter (fun p => p != item.image_path)
      else fs.imageFiles) := by
    simp only [deleteItemHandler, save_wardrobe]
    split <;> rfl
  refine ⟨rfl, ?_, rfl, ?_, ?_, ?_⟩
  · intro hnd hmem
    exact delete_exactly_one w.items item hnd hmem
  · rw [himg]
    split
    · intro hmem
      rw [List.mem_filter] at hmem
      simp at hmem
    · rename_i hcon
      intro hmem
      apply hcon
      rw [List.contains_iff_exists_mem_beq]
      exact ⟨item.image_path, hmem, by simp⟩
  · intro path hpath
    rw [himg]
    split
    · rw [List.mem_filter]
      constructor
      · exact fun h => h.1
      · intro h
        exact ⟨h, by simpa [bne_iff_ne] using hpath⟩
    · exact Iff.rfl
  · intro o i hi
    rw [displayOutfitItems, List.mem_filter] at hi
    obtain ⟨hiw, hio⟩ := hi
    rw [show (deleteItemHandler w fs item).1.items =
        w.items.filter (fun i => i.id != item.id) from rfl, List.mem_filter] at hiw
    refine ⟨by simpa [bne_iff_ne] using hiw.2, hiw.1, ?_⟩
    simpa using hio

/-- **C10**: deleting a saved outfit removes exactly the outfits with that
id from the outfits list and leaves everything else unchanged: the items
list, every item (hence every field), and all stored image files. -/
theorem delete_outfit_spec (w : Catalog) (fs : FileSystem) (outfit_data : Outfit) :
    (deleteOutfitHandler w fs outfit_data).1.outfits =
      w.outfits.filter (fun o => o.id != outfit_data.id) ∧
    (deleteOutfitHandler w fs outfit_data).1.items = w.items ∧
    (deleteOutfitHandler w fs outfit_data).2.imageFiles = fs.imageFiles ∧
    (∀ o ∈ w.outfits, o.id ≠ outfit_data.id →
      o ∈ (deleteOutfitHandler w fs outfit_data).1.outfits) ∧
    (∀ o ∈ (deleteOutfitHandler w fs outfit_data).1.outfits,
      o ∈ w.outfits ∧ o.id ≠ outfit_data.id) := by
  refine ⟨rfl, rfl, rfl, ?_, ?_⟩
  · intro o ho hne
    rw [show (deleteOutfitHandler w fs outfit_data).1.outfits =
        w.outfits.filter (fun o => o.id != outfit_data.id) from rfl, List.mem_filter]
    exact ⟨ho, by simpa [bne_iff_ne] using hne⟩
  · intro o ho
    rw [show (deleteOutfitHandler w fs outfit_data).1.outfits =
        w.outfits.filter (fun o => o.id != outfit_data.id) from rfl, List.mem_filter] at ho
    exact ⟨ho.1, by simpa [bne_iff_ne] using ho.2⟩

/-- Witness for the dress-vs-separates theorem at a concrete input: on the
three-item catalog with no dresses, the separates branch fires and picks
the unique Top and the unique Bottom. -/
theorem smart_dress_vs_separates_witness :
    (generate_smart_outfit gZero catalogABC none none rs0).lookup "Dress/Jumpsuit" = none ∧
    (generate_smart_outfit gZero catalogABC none none rs0).lookup "Top" = some itemA ∧
    (generate_smart_outfit gZero catalogABC none none rs0).lookup "Bottom" = some itemB := by
  have h := smart_dress_vs_separates gZero catalogABC none none rs0
    (smartPool catalogABC none none) [] [itemA] [itemB]
    (generate_smart_outfit gZero catalogABC none none rs0)
    rfl (by decide) (by decide) (by decide) rfl
  obtain ⟨-, h2⟩ := h
  obtain ⟨hdj, htop, -, hbot, -⟩ := h2 (Or.inl rfl)
  exact ⟨hdj, htop (by decide), hbot (by decide)⟩

/-- Witness for the shoes/outerwear/accessory theorem at a concrete input:
on the three-item catalog the unique Shoes item is always picked, and with
a 0.3 draw neither outerwear nor accessory is added. -/
theorem smart_shoes_outerwear_accessory_witness :
    (generate_smart_outfit gZero catalogABC none none rs0).lookup "Shoes" = some itemC ∧
    (generate_smart_outfit gZero catalogABC none none rs0).lookup "Outerwear" = none ∧
    (generate_smart_outfit gZero catalogABC none none rs0).lookup "Accessory" = none := by
  have h := smart_shoes_outerwear_accessory gZero catalogABC none none rs0
    (smartPool catalogABC none none) [itemC] [] []
    (smartBase gZero (smartPool catalogABC none none) rs0)
    (generate_smart_outfit gZero catalogABC none none rs0)
    rfl (by decide) (by decide) (by decide) rfl rfl
  obtain ⟨-, hs, ho, -, -, ha, -, -⟩ := h
  exact ⟨hs (by decide), ho rfl, ha rfl⟩

/-- Witness for the filter-composition theorem at a concrete input:
"Party" is a valid occasion, "Summer" a valid season, and with no filters
the pool is the whole item list. -/
theorem smart_filters_compose_witness :
    "Party" ∈ OCCASIONS ∧ "Summer" ∈ SEASONS ∧
    smartFiltered catalogABC none none = catalogABC.items :=
  ⟨by decide, by decide,
    (smart_filters_compose catalogABC "Party" "Summer" (by decide) (by decide)).2.2.2.1⟩

end Wardrobe
